import Mathlib

/-
Formal model of the health-check triage application.

The definitions below are a shallow embedding of the application's source:
  * `processAnswer` and its helpers embed the `/answer` route handler of
    `src/app/routes.py` (answer recording, baseline-field updates, the
    confusion red flag, and the red-flag gate);
  * `get_evidence` and its helpers embed `src/app/evidence.py` (reference
    rate resolution, the four risk percentages with their red-flag
    overrides, and the watch-for / escalation / home-remedy / differential
    builders, including the verbatim content tables).

Python floats are modelled as exact rationals (`ℚ`); `round(x, 1)` is
modelled as `round1`.  Python's stable `list.sort(key=...)` is modelled by
a stable insertion sort over key-decorated pairs (`pySort`), which computes
the same list as any stable ascending sort.  Functions of the repository
that live outside the two files above (`engine.check_red_flags`, the
free-text parsers of `PatientState`, `str.title`) are taken as parameters
(`Collab`), since the claims under study do not depend on them.
-/

/-! ## String helpers (models of the Python `str` operations used) -/

/-- Model of Python's ASCII whitespace test used by `str.strip`. -/
def isWsChar (c : Char) : Bool :=
  c = ' ' || c = '\t' || c = '\n' || c = '\r'

/-- Characters of a string with surrounding whitespace removed. -/
def trimChars (cs : List Char) : List Char :=
  ((cs.dropWhile isWsChar).reverse.dropWhile isWsChar).reverse

/-- Model of Python's `str.strip()` (ASCII whitespace). -/
def pyStrip (s : String) : String :=
  String.mk (trimChars s.data)

/-- Model of Python's `str.lower()` (ASCII case folding suffices for the
tables of this program). -/
def lowerStr (s : String) : String :=
  String.mk (s.data.map Char.toLower)

/-- `startsWithL n h` is true when `n` is an initial segment of `h`. -/
def startsWithL : List Char → List Char → Bool
  | [], _ => true
  | _ :: _, [] => false
  | a :: as, b :: bs => a == b && startsWithL as bs

/-- `hasSubList n h` is true when `n` occurs contiguously inside `h`. -/
def hasSubList (needle : List Char) : List Char → Bool
  | [] => needle.isEmpty
  | c :: rest => startsWithL needle (c :: rest) || hasSubList needle rest

/-- Model of Python's substring test `needle in hay`. -/
def strIn (needle hay : String) : Bool :=
  hasSubList needle.data hay.data

/-- Digit value of an ASCII digit character. -/
def digitVal (c : Char) : Option Nat :=
  if '0' ≤ c ∧ c ≤ '9' then some (c.toNat - '0'.toNat) else none

/-- Accumulate the value of a run of digit characters. -/
def digitsToNatAux : List Char → Nat → Option Nat
  | [], acc => some acc
  | c :: cs, acc =>
    match digitVal c with
    | some d => digitsToNatAux cs (acc * 10 + d)
    | none => none

/-- Value of a nonempty all-digit character list. -/
def digitsToNat : List Char → Option Nat
  | [] => none
  | c :: cs => digitsToNatAux (c :: cs) 0

/-- Model of Python's `int(s)` on strings (ASCII fragment: optional
surrounding whitespace, one optional sign, a nonempty digit run;
anything else raises, i.e. returns `none`). -/
def parseIntStr (s : String) : Option Int :=
  match trimChars s.data with
  | '-' :: rest => (digitsToNat rest).map fun n => -(n : Int)
  | '+' :: rest => (digitsToNat rest).map fun n => (n : Int)
  | rest => (digitsToNat rest).map fun n => (n : Int)

/-! ## Shared data model -/

/-- A raw form answer: a single string, or the list produced by a
multi-choice question (`request.form.getlist`). -/
inductive Raw
  | str (s : String)
  | multi (l : List String)
deriving DecidableEq

/-- Model of Python's `int(raw)` in the age branch of the answer handler:
`int` of a list raises `TypeError`. -/
def pyInt : Raw → Option Int
  | Raw.str s => parseIntStr s
  | Raw.multi _ => none

/-- A red flag record (`id`, display name, message, override level). -/
structure RedFlag where
  id : String
  name : String
  message : String
  override_level : Nat
deriving DecidableEq

/-- One entry of `PatientState.interview_history`. -/
structure HistEntry where
  question_id : String
  question_text : String
  answer : Raw
  answer_display : String
deriving DecidableEq

/-- The mutable per-session patient state (fields of `PatientState` used by
`routes.py` and `evidence.py`). -/
structure PatientState where
  name : Option String
  answering_for : Option Raw
  age : Option Int
  sex : Option String
  zip_code : Option String
  symptom_text : String
  pmh_text : String
  selected_symptoms : List String
  pmh : List String
  interview_answers : List (String × Raw)
  interview_history : List HistEntry
  red_flag_triggered : Option RedFlag
  phase : String

/-- A fresh `PatientState`, as restored from an empty session. -/
def emptyState : PatientState :=
  { name := none
    answering_for := none
    age := none
    sex := none
    zip_code := none
    symptom_text := ""
    pmh_text := ""
    selected_symptoms := []
    pmh := []
    interview_answers := []
    interview_history := []
    red_flag_triggered := none
    phase := "welcome" }

/-! ## The `/answer` route handler (`src/app/routes.py`, `answer`) -/

/-- Collaborators of the answer handler that live outside `routes.py` and
`evidence.py` (the interview engine's red-flag scan, the free-text
parsers of `PatientState`, and Python's `str.title`). -/
structure Collab where
  checkRedFlags : PatientState → Option RedFlag
  parseSymptoms : String → List String
  parsePmh : String → List String
  titleCase : String → String

/-- Where the handler redirects after processing an answer. -/
inductive Outcome
  | results
  | interview
deriving DecidableEq

/-- The hard-coded confusion / altered-mental-status red flag set when the
`answering_for_reason` answer is `"confused"`. -/
def confusionFlag : RedFlag :=
  { id := "mental_status_confused"
    name := "Confusion / Altered Mental Status"
    message := "If the person you’re helping is confused and unable to answer questions, this may indicate a serious condition such as a stroke, severe infection, or other emergency. Please call 911 or go to the nearest Emergency Department right away."
    override_level := 1 }

/-- Replace-or-append update of the `interview_answers` mapping. -/
def updateAssoc : List (String × Raw) → String → Raw → List (String × Raw)
  | [], k, v => [(k, v)]
  | (k', v') :: rest, k, v =>
    if k' = k then (k, v) :: rest else (k', v') :: updateAssoc rest k v

/-- Record the raw answer in `interview_answers` and append the history
entry, as the handler does before any field-specific branch. -/
def recordAnswer (qid qtext : String) (labels : List String) (raw : Raw)
    (st : PatientState) : PatientState :=
  let st1 := { st with interview_answers := updateAssoc st.interview_answers qid raw }
  let display :=
    match raw with
    | Raw.str s => s
    | Raw.multi l =>
      if labels = [] then String.intercalate ", " l else String.intercalate ", " labels
  { st1 with
    interview_history := st1.interview_history ++
      [{ question_id := qid, question_text := qtext, answer := raw, answer_display := display }] }

/-- The field-specific baseline updates of the handler (every branch except
`answering_for_reason`, which is handled in `processAnswer` because it can
return early). -/
def applyBaseline (cfg : Collab) (qid : String) (raw : Raw) (st : PatientState) :
    PatientState :=
  if qid = "name" then
    { st with name := some (match raw with
        | Raw.str s => cfg.titleCase (pyStrip s)
        | Raw.multi _ => "") }
  else if qid = "answering_for" then
    { st with answering_for := some raw }
  else if qid = "age" then
    { st with age := some ((pyInt raw).getD 40) }
  else if qid = "sex" then
    { st with sex := match raw with
        | Raw.str s => some s
        | Raw.multi _ => st.sex }
  else if qid = "symptoms" then
    let text := match raw with
      | Raw.str s => s
      | Raw.multi l => String.intercalate " " l
    { st with symptom_text := text, selected_symptoms := cfg.parseSymptoms text }
  else if qid = "pmh" then
    let text := match raw with
      | Raw.str s => s
      | Raw.multi l => String.intercalate " " l
    { st with pmh_text := text, pmh := cfg.parsePmh text }
  else if qid = "zip_code" then
    { st with zip_code := match raw with
        | Raw.str s => some (pyStrip s)
        | Raw.multi _ => none }
  else st

/-- The fixed baseline question ids (`BASELINE_IDS` in `routes.py`). -/
def BASELINE_IDS : List String :=
  ["name", "answering_for", "age", "sex", "symptoms", "pmh", "zip_code"]

/-- `BASELINE_IDS.issubset(answered_ids)` over the history. -/
def baselineComplete (hist : List HistEntry) : Bool :=
  BASELINE_IDS.all fun b => hist.any fun e => e.question_id == b

/-- The red-flag gate at the end of the handler: scan only once the
baseline is complete or the answer was a namespaced follow-up. -/
def redFlagGate (cfg : Collab) (qid : String) (st : PatientState) :
    PatientState × Outcome :=
  if baselineComplete st.interview_history || strIn "__" qid then
    match cfg.checkRedFlags st with
    | some rf => ({ st with red_flag_triggered := some rf }, Outcome.results)
    | none => (st, Outcome.interview)
  else (st, Outcome.interview)

/-- The `/answer` handler: record the answer, apply the field-specific
update (with the `"confused"` early return), then run the red-flag gate. -/
def processAnswer (cfg : Collab) (qid qtext : String) (labels : List String)
    (raw : Raw) (st : PatientState) : PatientState × Outcome :=
  let st1 := recordAnswer qid qtext labels raw st
  if qid = "answering_for_reason" then
    let st2 := { st1 with answering_for := some raw }
    if raw = Raw.str "confused" then
      ({ st2 with red_flag_triggered := some confusionFlag }, Outcome.results)
    else redFlagGate cfg qid st2
  else
    redFlagGate cfg qid (applyBaseline cfg qid raw st1)

/-- A trivial instantiation of the external collaborators, used for
concrete evaluations. -/
def cfg0 : Collab :=
  { checkRedFlags := fun _ => none
    parseSymptoms := fun _ => []
    parsePmh := fun _ => []
    titleCase := fun s => s }

/-! ### Basic lemmas about the handler -/

theorem redFlagGate_age (cfg : Collab) (qid : String) (st : PatientState) :
    (redFlagGate cfg qid st).1.age = st.age := by
  unfold redFlagGate
  split
  · cases cfg.checkRedFlags st <;> rfl
  · rfl

theorem redFlagGate_red_flag_none (cfg : Collab) (qid : String) (st : PatientState)
    (h : (baselineComplete st.interview_history || strIn "__" qid) = false) :
    redFlagGate cfg qid st = (st, Outcome.interview) := by
  unfold redFlagGate
  rw [h]
  rfl

theorem all_congr_of_mem {α : Type} {l : List α} {f g : α → Bool}
    (h : ∀ x ∈ l, f x = g x) : l.all f = l.all g := by
  induction l with
  | nil => rfl
  | cons a as ih =>
    simp only [List.all_cons]
    rw [h a (List.mem_cons_self a as), ih fun x hx => h x (List.mem_cons_of_mem a hx)]

theorem baselineComplete_append_reason (h : List HistEntry) (e : HistEntry)
    (he : e.question_id = "answering_for_reason") :
    baselineComplete (h ++ [e]) = baselineComplete h := by
  unfold baselineComplete
  refine all_congr_of_mem fun b hb => ?_
  rw [List.any_append]
  have : (List.any [e] fun x => x.question_id == b) = false := by
    simp only [List.any_cons, List.any_nil, Bool.or_false, he]
    fin_cases hb <;> decide
  rw [this, Bool.or_false]

/-! ### Claims C8 and C9 -/

/-- C8: in the answer-processing step, when the `answering_for_reason`
answer is `"confused"`, the hard-coded confusion/altered-mental-status red
flag with `override_level = 1` is set unconditionally and the session
proceeds straight to results; for every other reason value (in particular
`"chronic_unable"`), while the baseline is not yet complete, no red flag
is set there and the interview continues normally. -/
theorem C8_answering_for_reason (cfg : Collab) (st : PatientState)
    (qtext : String) (labels : List String) :
    ((processAnswer cfg "answering_for_reason" qtext labels (Raw.str "confused") st).1.red_flag_triggered
        = some confusionFlag ∧
      confusionFlag.override_level = 1 ∧
      (processAnswer cfg "answering_for_reason" qtext labels (Raw.str "confused") st).2
        = Outcome.results) ∧
    (∀ raw : Raw, raw ≠ Raw.str "confused" →
      baselineComplete st.interview_history = false →
      (processAnswer cfg "answering_for_reason" qtext labels raw st).1.red_flag_triggered
          = st.red_flag_triggered ∧
      (processAnswer cfg "answering_for_reason" qtext labels raw st).2
        = Outcome.interview) := by
  constructor
  · exact ⟨rfl, rfl, rfl⟩
  · intro raw hraw hbase
    unfold processAnswer
    rw [if_pos rfl, if_neg hraw]
    have hb : baselineComplete
        ({ recordAnswer "answering_for_reason" qtext labels raw st with
            answering_for := some raw }).interview_history = false := by
      show baselineComplete (st.interview_history ++ [_]) = false
      rw [baselineComplete_append_reason _ _ rfl, hbase]
    rw [redFlagGate_red_flag_none _ _ _ (by rw [hb]; rfl)]
    exact ⟨rfl, rfl⟩

/-- Witness for C8 at a concrete input: answering `"chronic_unable"` on a
fresh session leaves the red flag unset and continues the interview. -/
theorem C8_witness :
    (processAnswer cfg0 "answering_for_reason" "q" [] (Raw.str "chronic_unable") emptyState).1.red_flag_triggered
        = none ∧
    (processAnswer cfg0 "answering_for_reason" "q" [] (Raw.str "chronic_unable") emptyState).2
      = Outcome.interview := by
  have h := (C8_answering_for_reason cfg0 emptyState "q" []).2
    (Raw.str "chronic_unable") (by decide) (by decide)
  exact ⟨h.1, h.2⟩

/-- C9 counterexample: the age answer `"-5"` parses as the integer `-5`
and is stored verbatim, not replaced by the fixed default `40`, although a
negative age is out of range; the non-numeric answer `"abc"` shows that
the fixed default used for unparseable input is `40`. -/
theorem C9_counterexample :
    (processAnswer cfg0 "age" "How old are you?" [] (Raw.str "-5") emptyState).1.age
        = some (-5) ∧
    (-5 : Int) < 0 ∧ (-5 : Int) ≠ 40 ∧
    (processAnswer cfg0 "age" "How old are you?" [] (Raw.str "abc") emptyState).1.age
      = some 40 := by
  refine ⟨by decide, by decide, by decide, by decide⟩

/-- C9 amended: the stored age is replaced by the fixed default `40`
exactly when the raw answer does not parse as an integer; any parseable
integer (in range or not) is stored verbatim.  In neither case is the
input rejected. -/
theorem C9_age_default (cfg : Collab) (st : PatientState) (qtext : String)
    (labels : List String) (raw : Raw) :
    (pyInt raw = none →
      (processAnswer cfg "age" qtext labels raw st).1.age = some 40) ∧
    (∀ n : Int, pyInt raw = some n →
      (processAnswer cfg "age" qtext labels raw st).1.age = some n) := by
  have hage : ∀ st' : PatientState,
      (processAnswer cfg "age" qtext labels raw st').1.age
        = some ((pyInt raw).getD 40) := by
    intro st'
    unfold processAnswer
    rw [if_neg (by decide)]
    rw [redFlagGate_age]
    unfold applyBaseline
    rw [if_neg (by decide), if_neg (by decide), if_pos rfl]
  constructor
  · intro h
    rw [hage st, h]
    rfl
  · intro n h
    rw [hage st, h]
    rfl

/-- Witness for C9 amended: the unparseable answer `"abc"` stores the
default `40`, and the parseable answer `"117"` stores `117`. -/
theorem C9_witness :
    (processAnswer cfg0 "age" "q" [] (Raw.str "abc") emptyState).1.age = some 40 ∧
    (processAnswer cfg0 "age" "q" [] (Raw.str "117") emptyState).1.age = some 117 := by
  constructor
  · exact (C9_age_default cfg0 emptyState "q" [] (Raw.str "abc")).1 (by decide)
  · exact (C9_age_default cfg0 emptyState "q" [] (Raw.str "117")).2 117 (by decide)

/-! ## Rounding (model of Python's `round(x, 1)`) -/

/-- `round(x, 1)`: round to one decimal place.  Python floats are modelled
as exact rationals; no claim below depends on the tie-breaking rule. -/
def round1 (x : ℚ) : ℚ :=
  (round (x * 10) : ℤ) / 10

/-- A rational that carries at most one decimal place. -/
def oneDec (x : ℚ) : Prop :=
  ∃ n : ℤ, x = (n : ℚ) / 10

theorem oneDec_round1 (x : ℚ) : oneDec (round1 x) :=
  ⟨round (x * 10), rfl⟩

theorem round1_mono {x y : ℚ} (h : x ≤ y) : round1 x ≤ round1 y := by
  have hr : round (x * 10) ≤ round (y * 10) := by
    rw [round_eq, round_eq]
    exact Int.floor_mono (by linarith)
  unfold round1
  exact div_le_div_of_nonneg_right (by exact_mod_cast hr) (by norm_num)

theorem round1_ofInt (n : ℤ) : round1 ((n : ℚ) / 10) = (n : ℚ) / 10 := by
  unfold round1
  rw [div_mul_cancel₀ (b := (10 : ℚ)) _ (by norm_num), round_intCast]

theorem round1_oneDec {x : ℚ} (h : oneDec x) : round1 x = x := by
  obtain ⟨n, rfl⟩ := h
  exact round1_ofInt n

theorem round1_nonneg {x : ℚ} (h : 0 ≤ x) : 0 ≤ round1 x := by
  have := round1_mono h
  rwa [show round1 0 = 0 by unfold round1; norm_num] at this

theorem round1_le_oneDec {x c : ℚ} (hc : oneDec c) (h : x ≤ c) : round1 x ≤ c := by
  have := round1_mono h
  rwa [round1_oneDec hc] at this

theorem oneDec_num (n : ℤ) : oneDec ((n : ℚ)) :=
  ⟨n * 10, by push_cast; ring⟩

theorem oneDec_max {x y : ℚ} (hx : oneDec x) (hy : oneDec y) : oneDec (max x y) := by
  rcases max_choice x y with h | h <;> rw [h] <;> assumption

theorem oneDec_min {x y : ℚ} (hx : oneDec x) (hy : oneDec y) : oneDec (min x y) := by
  rcases min_choice x y with h | h <;> rw [h] <;> assumption

/-! ## Knowledge base and reference-rate resolution
(`src/app/evidence.py`, `get_evidence` lines 32-56) -/

/-- Per-symptom published rates (`by_symptom` entries of
`public_reference_rates.json`). -/
structure SymRates where
  admission_rate : ℚ
  mortality_rate : ℚ
  source : String

/-- The reference-rate file: overall fallback rates plus the per-symptom
table (modelled as a partial map, i.e. `dict.get`). -/
structure KB where
  overall_admission_rate : ℚ
  overall_seven_day_mortality : ℚ
  by_symptom : String → Option SymRates

/-- The accumulators `matched_admission`, `matched_mortality`,
`matched_sources` of `get_evidence`. -/
structure MatchedRates where
  adm : List ℚ
  mort : List ℚ
  sources : Finset String

/-- The collection loop over `patient_state.selected_symptoms`. -/
def matchedRates (kb : KB) (selected : List String) : MatchedRates :=
  selected.foldl
    (fun acc symId =>
      match kb.by_symptom symId with
      | some r =>
        { adm := acc.adm ++ [r.admission_rate]
          mort := acc.mort ++ [r.mortality_rate]
          sources := insert r.source acc.sources }
      | none => acc)
    { adm := [], mort := [], sources := ∅ }

/-- Python's `max` over a list (the lists it is applied to are nonempty;
the `[]` case is unreachable junk). -/
def listMax : List ℚ → ℚ
  | [] => 0
  | a :: as => as.foldl max a

/-- `pub_admission`: worst-case admission rate over matched symptoms, or
the overall fallback when nothing matched. -/
def pubAdmission (kb : KB) (selected : List String) : ℚ :=
  if (matchedRates kb selected).adm = [] then kb.overall_admission_rate
  else listMax (matchedRates kb selected).adm

/-- `pub_mortality`: worst-case mortality rate over matched symptoms, or
the overall fallback when nothing matched (the branch is keyed on
`matched_admission`, exactly as in the source). -/
def pubMortality (kb : KB) (selected : List String) : ℚ :=
  if (matchedRates kb selected).adm = [] then kb.overall_seven_day_mortality
  else listMax (matchedRates kb selected).mort

/-! ### Characterization of the collection loop -/

theorem matchedRates_adm (kb : KB) (selected : List String) :
    (matchedRates kb selected).adm
      = selected.filterMap fun s => (kb.by_symptom s).map SymRates.admission_rate := by
  suffices h : ∀ (l : List String) (acc : MatchedRates),
      (l.foldl (fun acc symId =>
        match kb.by_symptom symId with
        | some r =>
          { adm := acc.adm ++ [r.admission_rate]
            mort := acc.mort ++ [r.mortality_rate]
            sources := insert r.source acc.sources }
        | none => acc) acc).adm
        = acc.adm ++ l.filterMap fun s => (kb.by_symptom s).map SymRates.admission_rate by
    simpa using h selected { adm := [], mort := [], sources := ∅ }
  intro l
  induction l with
  | nil => intro acc; simp
  | cons s rest ih =>
    intro acc
    rw [List.foldl_cons, List.filterMap_cons]
    cases h : kb.by_symptom s with
    | none => simpa [h] using ih acc
    | some r => simp [h, ih]

theorem matchedRates_mort (kb : KB) (selected : List String) :
    (matchedRates kb selected).mort
      = selected.filterMap fun s => (kb.by_symptom s).map SymRates.mortality_rate := by
  suffices h : ∀ (l : List String) (acc : MatchedRates),
      (l.foldl (fun acc symId =>
        match kb.by_symptom symId with
        | some r =>
          { adm := acc.adm ++ [r.admission_rate]
            mort := acc.mort ++ [r.mortality_rate]
            sources := insert r.source acc.sources }
        | none => acc) acc).mort
        = acc.mort ++ l.filterMap fun s => (kb.by_symptom s).map SymRates.mortality_rate by
    simpa using h selected { adm := [], mort := [], sources := ∅ }
  intro l
  induction l with
  | nil => intro acc; simp
  | cons s rest ih =>
    intro acc
    rw [List.foldl_cons, List.filterMap_cons]
    cases h : kb.by_symptom s with
    | none => simpa [h] using ih acc
    | some r => simp [h, ih]

theorem matchedRates_sources (kb : KB) (selected : List String) (src : String) :
    src ∈ (matchedRates kb selected).sources ↔
      ∃ s ∈ selected, ∃ r, kb.by_symptom s = some r ∧ r.source = src := by
  suffices h : ∀ (l : List String) (acc : MatchedRates),
      src ∈ (l.foldl (fun acc symId =>
        match kb.by_symptom symId with
        | some r =>
          { adm := acc.adm ++ [r.admission_rate]
            mort := acc.mort ++ [r.mortality_rate]
            sources := insert r.source acc.sources }
        | none => acc) acc).sources
        ↔ src ∈ acc.sources ∨ ∃ s ∈ l, ∃ r, kb.by_symptom s = some r ∧ r.source = src by
    have := h selected { adm := [], mort := [], sources := ∅ }
    simpa using this
  intro l
  induction l with
  | nil => intro acc; simp
  | cons s rest ih =>
    intro acc
    rw [List.foldl_cons]
    cases h : kb.by_symptom s with
    | none =>
      rw [ih]
      constructor
      · rintro (hm | hm)
        · exact Or.inl hm
        · exact Or.inr (by obtain ⟨a, ha, r, hr⟩ := hm; exact ⟨a, List.mem_cons_of_mem s ha, r, hr⟩)
      · rintro (hm | ⟨a, ha, r, hr, hsrc⟩)
        · exact Or.inl hm
        · rcases List.mem_cons.mp ha with rfl | ha'
          · rw [h] at hr; cases hr
          · exact Or.inr ⟨a, ha', r, hr, hsrc⟩
    | some r =>
      rw [ih]
      simp only [Finset.mem_insert, List.mem_cons]
      constructor
      · rintro ((rfl | hm) | hm)
        · exact Or.inr ⟨s, Or.inl rfl, r, h, rfl⟩
        · exact Or.inl hm
        · obtain ⟨a, ha, r', hr'⟩ := hm
          exact Or.inr ⟨a, Or.inr ha, r', hr'⟩
      · rintro (hm | ⟨a, ha, r', hr', hsrc⟩)
        · exact Or.inl (Or.inr hm)
        · rcases ha with rfl | ha'
          · rw [h] at hr'
            cases hr'
            exact Or.inl (Or.inl hsrc.symm)
          · exact Or.inr ⟨a, ha', r', hr', hsrc⟩

theorem base_le_foldl_max : ∀ (bs : List ℚ) (b : ℚ), b ≤ bs.foldl max b := by
  intro bs
  induction bs with
  | nil => intro b; exact le_refl b
  | cons c cs ih =>
    intro b
    rw [List.foldl_cons]
    exact le_trans (le_max_left b c) (ih (max b c))

theorem mem_le_foldl_max : ∀ (bs : List ℚ) (b a : ℚ), a ∈ bs → a ≤ bs.foldl max b := by
  intro bs
  induction bs with
  | nil => intro b a h; cases h
  | cons c cs ih =>
    intro b a h
    rw [List.foldl_cons]
    rcases List.mem_cons.mp h with rfl | h'
    · exact le_trans (le_max_right b a) (base_le_foldl_max cs (max b a))
    · exact ih (max b c) a h'

theorem le_listMax {l : List ℚ} {a : ℚ} (h : a ∈ l) : a ≤ listMax l := by
  match l with
  | b :: bs =>
    show a ≤ bs.foldl max b
    rcases List.mem_cons.mp h with rfl | h'
    · exact base_le_foldl_max bs a
    · exact mem_le_foldl_max bs b a h'

theorem foldl_max_cases : ∀ (bs : List ℚ) (b : ℚ),
    bs.foldl max b = b ∨ bs.foldl max b ∈ bs := by
  intro bs
  induction bs with
  | nil => intro b; exact Or.inl rfl
  | cons c cs ih =>
    intro b
    rw [List.foldl_cons]
    rcases ih (max b c) with h | h
    · rcases max_choice b c with hm | hm
      · exact Or.inl (by rw [h, hm])
      · exact Or.inr (by rw [h, hm]; exact List.mem_cons_self c cs)
    · exact Or.inr (List.mem_cons_of_mem c h)

theorem listMax_mem {l : List ℚ} (h : l ≠ []) : listMax l ∈ l := by
  match l with
  | b :: bs =>
    show bs.foldl max b ∈ b :: bs
    rcases foldl_max_cases bs b with h' | h'
    · rw [h']
      exact List.mem_cons_self b bs
    · exact List.mem_cons_of_mem b h'

theorem matched_adm_nil_iff (kb : KB) (selected : List String) :
    (matchedRates kb selected).adm = [] ↔ ∀ s ∈ selected, kb.by_symptom s = none := by
  rw [matchedRates_adm, List.filterMap_eq_nil_iff]
  constructor
  · intro h s hs
    have := h s hs
    cases hx : kb.by_symptom s with
    | none => rfl
    | some r => rw [hx] at this; cases this
  · intro h s hs
    rw [h s hs]
    rfl

/-! ### Claim C5 -/

/-- C5: reference-rate resolution.  When at least one selected symptom is
in the per-symptom table, `pub_admission` / `pub_mortality` are the
maximum admission and mortality rates over the matched symptoms and the
recorded source set is exactly the union of the matched sources; when no
symptom matches (including the empty selection) they are exactly the
overall fallback rates. -/
theorem C5_reference_resolution (kb : KB) (selected : List String) :
    ((∃ s ∈ selected, (kb.by_symptom s).isSome) →
      ((∃ s ∈ selected, ∃ r, kb.by_symptom s = some r ∧
          pubAdmission kb selected = r.admission_rate) ∧
        (∀ s ∈ selected, ∀ r, kb.by_symptom s = some r →
          r.admission_rate ≤ pubAdmission kb selected) ∧
        (∃ s ∈ selected, ∃ r, kb.by_symptom s = some r ∧
          pubMortality kb selected = r.mortality_rate) ∧
        (∀ s ∈ selected, ∀ r, kb.by_symptom s = some r →
          r.mortality_rate ≤ pubMortality kb selected))) ∧
    ((¬ ∃ s ∈ selected, (kb.by_symptom s).isSome) →
      pubAdmission kb selected = kb.overall_admission_rate ∧
      pubMortality kb selected = kb.overall_seven_day_mortality) ∧
    (∀ src : String, src ∈ (matchedRates kb selected).sources ↔
      ∃ s ∈ selected, ∃ r, kb.by_symptom s = some r ∧ r.source = src) := by
  refine ⟨?_, ?_, fun src => matchedRates_sources kb selected src⟩
  · intro hmatch
    obtain ⟨s0, hs0, hsome⟩ := hmatch
    obtain ⟨r0, hr0⟩ := Option.isSome_iff_exists.mp hsome
    have hne : (matchedRates kb selected).adm ≠ [] := by
      rw [Ne, matched_adm_nil_iff]
      intro h
      rw [h s0 hs0] at hr0
      cases hr0
    have hadm : pubAdmission kb selected = listMax (matchedRates kb selected).adm := by
      unfold pubAdmission
      rw [if_neg hne]
    have hmort : pubMortality kb selected = listMax (matchedRates kb selected).mort := by
      unfold pubMortality
      rw [if_neg hne]
    refine ⟨?_, ?_, ?_, ?_⟩
    · have hm := listMax_mem hne
      rw [matchedRates_adm, List.mem_filterMap] at hm
      obtain ⟨s, hs, hr⟩ := hm
      cases hx : kb.by_symptom s with
      | none => rw [hx] at hr; cases hr
      | some r =>
        rw [hx] at hr
        have hval : r.admission_rate = listMax (matchedRates kb selected).adm := by
          rw [matchedRates_adm]
          exact Option.some.inj hr
        exact ⟨s, hs, r, hx, by rw [hadm, hval]⟩
    · intro s hs r hr
      rw [hadm]
      refine le_listMax ?_
      rw [matchedRates_adm, List.mem_filterMap]
      exact ⟨s, hs, by rw [hr]; rfl⟩
    · have hnem : (matchedRates kb selected).mort ≠ [] := by
        rw [Ne, matchedRates_mort, List.filterMap_eq_nil_iff]
        intro h
        have := h s0 hs0
        rw [hr0] at this
        cases this
      have hm := listMax_mem hnem
      rw [matchedRates_mort, List.mem_filterMap] at hm
      obtain ⟨s, hs, hr⟩ := hm
      cases hx : kb.by_symptom s with
      | none => rw [hx] at hr; cases hr
      | some r =>
        rw [hx] at hr
        have hval : r.mortality_rate = listMax (matchedRates kb selected).mort := by
          rw [matchedRates_mort]
          exact Option.some.inj hr
        exact ⟨s, hs, r, hx, by rw [hmort, hval]⟩
    · intro s hs r hr
      rw [hmort]
      refine le_listMax ?_
      rw [matchedRates_mort, List.mem_filterMap]
      exact ⟨s, hs, by rw [hr]; rfl⟩
  · intro hnone
    have hnil : (matchedRates kb selected).adm = [] := by
      rw [matched_adm_nil_iff]
      intro s hs
      cases hx : kb.by_symptom s with
      | none => rfl
      | some r => exact absurd ⟨s, hs, by rw [hx]; rfl⟩ hnone
    constructor
    · unfold pubAdmission
      rw [if_pos hnil]
    · unfold pubMortality
      rw [if_pos hnil]

/-! ## Content tables of `src/app/evidence.py` (verbatim data) -/

/-- `SYMPTOM_WATCH_FOR`: per-symptom warning signs. -/
def SYMPTOM_WATCH_FOR : List (String × List String) :=
  [("chest_pain",
    ["Pain that spreads to your arm, jaw, neck, or back",
     "Chest pain that gets worse with activity or doesn\x27t go away with rest",
     "Chest pain with sweating, nausea, or lightheadedness"]),
   ("shortness_of_breath",
    ["Breathing that keeps getting harder or faster",
     "Lips or fingertips turning blue or gray",
     "Unable to speak in full sentences due to breathlessness"]),
   ("abdominal_pain",
    ["Belly pain that becomes severe or constant",
     "Belly that feels hard or very tender to touch",
     "Vomiting blood or passing dark/bloody stool"]),
   ("headache",
    ["Sudden, severe headache unlike anything you\x27ve had before",
     "Headache with stiff neck, high fever, or confusion",
     "Headache with vision changes, weakness, or trouble speaking"]),
   ("fever",
    ["Temperature above 103°F (39.4°C) that won\x27t come down",
     "Fever with a stiff neck, rash, or confusion",
     "Fever with difficulty breathing or chest pain"]),
   ("dizziness",
    ["Dizziness with slurred speech or weakness on one side",
     "Fainting or passing out",
     "Dizziness with chest pain or irregular heartbeat"]),
   ("injury_fall",
    ["Increasing swelling, numbness, or inability to move the injured area",
     "Injury with signs of infection (redness spreading, warmth, pus)",
     "Head injury followed by confusion, vomiting, or worsening headache"]),
   ("back_pain",
    ["Loss of bladder or bowel control",
     "Numbness or weakness spreading to both legs",
     "Severe pain that wakes you from sleep or doesn\x27t improve"]),
   ("weakness",
    ["Sudden weakness or numbness on one side of your body",
     "Weakness with trouble speaking, confusion, or vision changes",
     "Weakness that keeps getting worse over hours"]),
   ("nausea_vomiting",
    ["Vomiting that won\x27t stop or contains blood",
     "Signs of dehydration (very dry mouth, no urination, dizziness)",
     "Severe belly pain with vomiting"]),
   ("rash",
    ["Rash that spreads quickly or comes with fever",
     "Swelling of face, lips, or throat",
     "Blisters or skin that looks infected (warm, red, swelling)"]),
   ("urinary",
    ["Fever or chills with urinary symptoms",
     "Blood in your urine that is heavy or won\x27t stop",
     "Severe flank or back pain with urinary symptoms"]),
   ("allergic_reaction",
    ["Swelling of your face, lips, tongue, or throat",
     "Trouble breathing or swallowing",
     "Feeling faint or dizzy after exposure to an allergen"]),
   ("gi_bleed",
    ["Large amounts of blood in vomit or stool",
     "Feeling lightheaded, dizzy, or like you might pass out",
     "Rapid heartbeat or cold/clammy skin"]),
   ("anxiety_depression",
    ["Thoughts of hurting yourself or others",
     "Feeling unable to cope or function",
     "Panic symptoms that don\x27t improve (racing heart, can\x27t breathe)"]),
   ("substance_use",
    ["Confusion, seizures, or loss of consciousness",
     "Difficulty breathing or very slow breathing",
     "Chest pain or irregular heartbeat"])]

/-- `GENERAL_WATCH_FOR`: fallback warning signs. -/
def GENERAL_WATCH_FOR : List String :=
  ["Sudden or severe chest pain or pressure",
   "Difficulty breathing that gets worse",
   "Sudden confusion, trouble speaking, or weakness on one side",
   "Fainting or loss of consciousness",
   "Severe or worsening pain that doesn\x27t improve"]

/-- One escalation statement (`if_sign` / `then_action` / `severity`). -/
structure EscEntry where
  if_sign : String
  then_action : String
  severity : String
deriving DecidableEq

/-- `SYMPTOM_ESCALATION`: per-symptom escalation statements. -/
def SYMPTOM_ESCALATION : List (String × List EscEntry) :=
  [("chest_pain",
    [⟨"your chest pain gets worse or spreads to your arm, jaw, or neck",
      "Call 911 immediately", "critical"⟩,
     ⟨"you start sweating, feel nauseous, or get lightheaded with the chest pain",
      "Call 911 immediately", "critical"⟩,
     ⟨"the pain doesn’t go away after 15 minutes of rest",
      "Go to the Emergency Department", "urgent"⟩]),
   ("shortness_of_breath",
    [⟨"your breathing gets harder, faster, or you can’t speak full sentences",
      "Call 911 immediately", "critical"⟩,
     ⟨"your lips or fingertips turn blue or gray",
      "Call 911 immediately", "critical"⟩]),
   ("headache",
    [⟨"you get a sudden, severe headache that’s the worst of your life",
      "Call 911 — this could be bleeding in the brain", "critical"⟩,
     ⟨"you develop a stiff neck with fever",
      "Go to the Emergency Department now", "critical"⟩,
     ⟨"you notice weakness on one side, trouble speaking, or vision changes",
      "Call 911 — these could be signs of a stroke", "critical"⟩]),
   ("abdominal_pain",
    [⟨"your belly pain becomes severe or constant and won’t go away",
      "Go to the Emergency Department", "urgent"⟩,
     ⟨"you see blood in your vomit or stool",
      "Go to the Emergency Department immediately", "critical"⟩,
     ⟨"your belly becomes hard, swollen, or very tender to touch",
      "Go to the Emergency Department", "urgent"⟩]),
   ("fever",
    [⟨"your temperature goes above 103°F (39.4°C) and won’t come down",
      "Go to the Emergency Department", "urgent"⟩,
     ⟨"you develop a fever with confusion, stiff neck, or rash",
      "Call 911 or go to the ER immediately", "critical"⟩]),
   ("dizziness",
    [⟨"you develop slurred speech or weakness on one side of your body",
      "Call 911 — these are signs of a stroke", "critical"⟩,
     ⟨"you faint or pass out",
      "Call 911 or go to the Emergency Department", "critical"⟩]),
   ("back_pain",
    [⟨"you lose control of your bladder or bowels",
      "Go to the Emergency Department immediately", "critical"⟩,
     ⟨"numbness or weakness spreads to both legs",
      "Go to the Emergency Department now", "critical"⟩]),
   ("weakness",
    [⟨"you develop sudden weakness or numbness on one side of your body",
      "Call 911 — this could be a stroke", "critical"⟩]),
   ("nausea_vomiting",
    [⟨"you can’t keep any fluids down for more than 12 hours",
      "Go to an Urgent Care or Emergency Department for fluids", "urgent"⟩,
     ⟨"you see blood in your vomit",
      "Go to the Emergency Department immediately", "critical"⟩]),
   ("rash",
    [⟨"the rash spreads quickly and comes with fever or trouble breathing",
      "Call 911 or go to the Emergency Department", "critical"⟩]),
   ("urinary",
    [⟨"you develop fever, chills, or severe flank pain with urinary symptoms",
      "Go to the Emergency Department", "urgent"⟩]),
   ("allergic_reaction",
    [⟨"your face, lips, or throat start to swell, or you have trouble breathing",
      "Use your EpiPen if you have one and call 911 immediately", "critical"⟩]),
   ("gi_bleed",
    [⟨"you feel lightheaded, dizzy, or like you might pass out",
      "Call 911 immediately", "critical"⟩]),
   ("injury_fall",
    [⟨"after a head injury you develop confusion, vomiting, or worsening headache",
      "Go to the Emergency Department immediately", "critical"⟩,
     ⟨"you notice increasing swelling, numbness, or can’t move the injured area",
      "Go to an Urgent Care or Emergency Department", "urgent"⟩]),
   ("anxiety_depression",
    [⟨"you have thoughts of hurting yourself or others",
      "Call 988 (Suicide & Crisis Lifeline) or go to the nearest ER", "critical"⟩])]

/-- `GENERAL_ESCALATION`: fallback escalation statements. -/
def GENERAL_ESCALATION : List EscEntry :=
  [⟨"your symptoms suddenly get much worse",
    "Call 911 or go to the nearest Emergency Department", "critical"⟩,
   ⟨"you develop new trouble breathing, chest pain, or confusion",
    "Call 911 immediately", "critical"⟩,
   ⟨"your symptoms don’t improve after 24–48 hours or keep getting worse",
    "See a doctor sooner than planned or go to Urgent Care", "watch"⟩]

/-- One home remedy (`remedy` / `detail`). -/
structure Remedy where
  remedy : String
  detail : String
deriving DecidableEq

/-- `SYMPTOM_HOME_REMEDIES`: per-symptom home remedies. -/
def SYMPTOM_HOME_REMEDIES : List (String × List Remedy) :=
  [("headache",
    [⟨"Rest in a quiet, dark room", "Reducing light and noise can help a headache ease."⟩,
     ⟨"Stay hydrated", "Drink water or clear fluids — dehydration is a common headache trigger."⟩,
     ⟨"Over-the-counter pain relief", "Acetaminophen (Tylenol) or ibuprofen (Advil) as directed on the label."⟩,
     ⟨"Cold compress", "Place a cold cloth or ice pack on your forehead for 15 minutes."⟩,
     ⟨"Limit screen time", "Take a break from phones, computers, and bright screens."⟩]),
   ("fever",
    [⟨"Rest and sleep", "Your body fights illness best when resting."⟩,
     ⟨"Stay hydrated", "Drink water, broth, or electrolyte drinks frequently."⟩,
     ⟨"Over-the-counter fever reducer", "Acetaminophen or ibuprofen as directed. Do NOT give aspirin to children."⟩,
     ⟨"Lukewarm compress", "A lukewarm (not cold) washcloth on the forehead can help."⟩,
     ⟨"Dress lightly", "Wear light clothing and use a light blanket."⟩]),
   ("nausea_vomiting",
    [⟨"Sip clear fluids slowly", "Small sips of water, ginger ale, or electrolyte drinks every few minutes."⟩,
     ⟨"Try the BRAT diet", "Bananas, rice, applesauce, and toast are gentle on the stomach."⟩,
     ⟨"Ginger", "Ginger tea, ginger ale, or ginger candies can help settle nausea."⟩,
     ⟨"Avoid triggers", "Stay away from greasy, spicy, or strong-smelling foods."⟩,
     ⟨"Rest sitting up", "Lying flat can make nausea worse — try propping yourself up."⟩]),
   ("cough",
    [⟨"Warm fluids", "Tea with honey, warm water with lemon, or broth can soothe your throat."⟩,
     ⟨"Honey", "A spoonful of honey can help calm a cough (not for children under 1)."⟩,
     ⟨"Humidifier", "Adding moisture to the air can help loosen congestion."⟩,
     ⟨"Cough drops or lozenges", "Over-the-counter throat lozenges can provide temporary relief."⟩,
     ⟨"Elevate your head", "Use an extra pillow when sleeping to reduce nighttime coughing."⟩]),
   ("sore_throat",
    [⟨"Warm saltwater gargle", "Mix ½ teaspoon salt in warm water and gargle for 30 seconds."⟩,
     ⟨"Warm fluids", "Tea with honey, warm broth, or warm water with lemon."⟩,
     ⟨"Throat lozenges", "Over-the-counter lozenges or hard candy to keep your throat moist."⟩,
     ⟨"Over-the-counter pain relief", "Acetaminophen or ibuprofen can reduce pain and swelling."⟩,
     ⟨"Rest your voice", "Try to talk less and avoid whispering (it strains your throat more)."⟩]),
   ("back_pain",
    [⟨"Gentle movement", "Avoid bed rest — gentle walking and stretching help more than staying still."⟩,
     ⟨"Alternate ice and heat", "Ice for the first 48 hours (20 min on/off), then switch to heat."⟩,
     ⟨"Over-the-counter anti-inflammatory", "Ibuprofen (Advil) or naproxen (Aleve) as directed on the label."⟩,
     ⟨"Avoid heavy lifting", "Don’t lift anything heavy until the pain improves."⟩,
     ⟨"Good posture", "Sit and stand straight — slouching puts extra strain on your back."⟩]),
   ("extremity_pain",
    [⟨"RICE method", "Rest, Ice (20 min on/off), Compression (wrap), Elevation (raise it up)."⟩,
     ⟨"Over-the-counter anti-inflammatory", "Ibuprofen or naproxen to reduce pain and swelling."⟩,
     ⟨"Gentle stretching", "Light stretching may help if the pain is from a muscle strain."⟩,
     ⟨"Avoid overuse", "Give the area time to heal — don’t push through the pain."⟩]),
   ("rash",
    [⟨"Cool compress", "A cool, damp cloth on the rash can relieve itching and swelling."⟩,
     ⟨"Over-the-counter antihistamine", "Benadryl (diphenhydramine) or Zyrtec (cetirizine) for itching."⟩,
     ⟨"Moisturize", "Unscented lotion or aloe vera gel can soothe irritated skin."⟩,
     ⟨"Avoid scratching", "Scratching can make it worse or cause infection."⟩,
     ⟨"Avoid irritants", "Stay away from harsh soaps, new detergents, or anything that may have triggered it."⟩]),
   ("dizziness",
    [⟨"Sit or lie down right away", "This prevents falls and helps blood flow to your brain."⟩,
     ⟨"Stay hydrated", "Dizziness is often caused by dehydration — drink water or electrolyte drinks."⟩,
     ⟨"Eat something", "Low blood sugar can cause dizziness — try a light snack."⟩,
     ⟨"Avoid sudden movements", "Get up slowly from sitting or lying down."⟩,
     ⟨"Rest", "Give your body time to recover in a comfortable position."⟩]),
   ("abdominal_pain",
    [⟨"Clear liquids", "Start with water, broth, or ginger tea. Avoid solid food until the pain eases."⟩,
     ⟨"Warm compress", "A heating pad or warm towel on your belly can help relax cramps."⟩,
     ⟨"Rest", "Lie in a comfortable position — try lying on your side with knees pulled up."⟩,
     ⟨"Avoid trigger foods", "Stay away from fatty, spicy, or acidic foods until you feel better."⟩,
     ⟨"Peppermint tea", "Peppermint can help relax stomach muscles and ease bloating."⟩]),
   ("urinary",
    [⟨"Drink plenty of water", "Flushing your system with water can help mild urinary symptoms."⟩,
     ⟨"Cranberry juice", "Unsweetened cranberry juice may help prevent bacteria from sticking."⟩,
     ⟨"Avoid caffeine and alcohol", "These can irritate the bladder and make symptoms worse."⟩,
     ⟨"Warm compress", "A warm cloth on your lower belly can ease discomfort."⟩]),
   ("anxiety_depression",
    [⟨"Deep breathing", "Breathe in for 4 seconds, hold for 4, out for 4. Repeat 5 times."⟩,
     ⟨"Grounding technique", "Name 5 things you see, 4 you hear, 3 you touch, 2 you smell, 1 you taste."⟩,
     ⟨"Talk to someone", "Call a friend, family member, or the 988 Suicide & Crisis Lifeline."⟩,
     ⟨"Physical activity", "Even a 10-minute walk can help reduce anxiety."⟩,
     ⟨"Limit caffeine", "Coffee and energy drinks can worsen anxiety symptoms."⟩]),
   ("insomnia",
    [⟨"Keep a regular sleep schedule", "Go to bed and wake up at the same time each day."⟩,
     ⟨"Avoid screens before bed", "Put away phones and laptops at least 30 minutes before sleep."⟩,
     ⟨"Create a calm environment", "Cool, dark, quiet room. Try earplugs or a white noise machine."⟩,
     ⟨"Avoid caffeine after noon", "Caffeine stays in your system for hours and disrupts sleep."⟩])]

/-- `GENERAL_HOME_REMEDIES`: fallback home remedies. -/
def GENERAL_HOME_REMEDIES : List Remedy :=
  [⟨"Rest", "Give your body time to heal — take it easy for a day or two."⟩,
   ⟨"Stay hydrated", "Drink water, herbal tea, or clear broth throughout the day."⟩,
   ⟨"Over-the-counter pain relief", "Acetaminophen (Tylenol) or ibuprofen (Advil) as directed if needed."⟩,
   ⟨"Monitor your symptoms", "Keep track of how you feel. If things get worse, seek medical care."⟩]

/-- One catalogue entry of the differential table
(diagnosis / qualitative likelihood / clinical notes). -/
structure DxEntry where
  diagnosis : String
  likelihood : String
  notes : String
deriving DecidableEq

/-- `SYMPTOM_DIFFERENTIALS`: per-symptom candidate diagnoses. -/
def SYMPTOM_DIFFERENTIALS : List (String × List DxEntry) :=
  [("chest_pain",
    [⟨"Musculoskeletal chest wall pain", "Common", "Reproducible with palpation; often positional"⟩,
     ⟨"Gastroesophageal reflux (GERD)", "Common", "Burning quality; worse after eating or lying down"⟩,
     ⟨"Anxiety / Panic attack", "Common", "Palpitations, tingling, sense of doom; often in younger patients"⟩,
     ⟨"Acute coronary syndrome (heart attack)", "Less common", "Pressure/squeezing; radiates to arm/jaw; sweating; risk increases with age, diabetes, smoking"⟩,
     ⟨"Pulmonary embolism", "Less common", "Sudden onset with shortness of breath; pleuritic; risk with immobility, birth control, recent surgery"⟩,
     ⟨"Pneumonia / Pleuritis", "Less common", "Sharp pain with breathing; cough; fever"⟩,
     ⟨"Pericarditis", "Uncommon", "Sharp pain worse with lying flat, better leaning forward; recent viral illness"⟩,
     ⟨"Aortic dissection", "Rare", "Tearing pain radiating to back; hypertension; medical emergency"⟩]),
   ("shortness_of_breath",
    [⟨"Asthma / Reactive airway", "Common", "Wheezing; triggered by allergens, exercise, or cold air"⟩,
     ⟨"COPD exacerbation", "Common", "Chronic smoker; worsening baseline dyspnea; productive cough"⟩,
     ⟨"Pneumonia", "Common", "Cough, fever, abnormal breath sounds"⟩,
     ⟨"Heart failure exacerbation", "Less common", "Leg swelling, orthopnea, history of heart disease"⟩,
     ⟨"Anxiety / Hyperventilation", "Common", "Tingling, lightheadedness; often younger patients"⟩,
     ⟨"Pulmonary embolism", "Less common", "Sudden onset; pleuritic chest pain; tachycardia"⟩,
     ⟨"Anemia", "Less common", "Gradual onset; fatigue; pallor"⟩]),
   ("headache",
    [⟨"Tension headache", "Very common", "Band-like pressure; bilateral; associated with stress"⟩,
     ⟨"Migraine", "Common", "Unilateral, throbbing; nausea; light/sound sensitivity; aura possible"⟩,
     ⟨"Sinusitis", "Common", "Facial pressure; nasal congestion; worse leaning forward"⟩,
     ⟨"Medication overuse headache", "Less common", "Chronic daily headache in someone using analgesics >15 days/month"⟩,
     ⟨"Hypertensive headache", "Less common", "Severe headache with very high blood pressure"⟩,
     ⟨"Subarachnoid hemorrhage", "Rare", "Sudden thunderclap worst-ever headache; medical emergency"⟩,
     ⟨"Meningitis", "Rare", "Headache with fever, stiff neck, photophobia"⟩,
     ⟨"Intracranial mass", "Rare", "Progressive headache; worse in morning; neurologic deficits"⟩]),
   ("abdominal_pain",
    [⟨"Gastritis / Dyspepsia", "Very common", "Epigastric burning; related to meals, NSAID use, or stress"⟩,
     ⟨"Gastroenteritis", "Common", "Crampy pain with nausea, vomiting, or diarrhea; often viral"⟩,
     ⟨"Constipation", "Common", "Diffuse cramping; infrequent or hard stools"⟩,
     ⟨"Urinary tract infection", "Common", "Lower abdominal pain with urinary frequency, burning"⟩,
     ⟨"Appendicitis", "Less common", "Starts around navel, migrates to right lower quadrant; fever"⟩,
     ⟨"Cholecystitis (gallbladder)", "Less common", "Right upper quadrant pain after fatty meals; nausea"⟩,
     ⟨"Kidney stones", "Less common", "Severe flank pain radiating to groin; comes in waves"⟩,
     ⟨"Small bowel obstruction", "Uncommon", "Crampy pain, vomiting, distension; history of prior surgery"⟩,
     ⟨"Ectopic pregnancy", "Uncommon", "Lower abdominal pain in reproductive-age female; missed period"⟩]),
   ("fever",
    [⟨"Viral upper respiratory infection", "Very common", "Cough, congestion, sore throat; self-limited"⟩,
     ⟨"Urinary tract infection", "Common", "Fever with urinary symptoms; flank pain if pyelonephritis"⟩,
     ⟨"Influenza", "Common", "High fever, body aches, fatigue; seasonal"⟩,
     ⟨"Pneumonia", "Less common", "Fever with productive cough, shortness of breath"⟩,
     ⟨"Cellulitis / Skin infection", "Less common", "Fever with localized redness, swelling, warmth"⟩,
     ⟨"COVID-19", "Less common", "Fever with cough, loss of taste/smell, fatigue"⟩,
     ⟨"Sepsis", "Uncommon", "High fever with confusion, rapid breathing, tachycardia; emergency"⟩]),
   ("dizziness",
    [⟨"Benign positional vertigo (BPPV)", "Very common", "Brief spinning triggered by head position changes"⟩,
     ⟨"Orthostatic hypotension", "Common", "Lightheadedness on standing; dehydration or medication side effect"⟩,
     ⟨"Vestibular neuritis / Labyrinthitis", "Common", "Prolonged vertigo after viral illness; may have hearing changes"⟩,
     ⟨"Anemia", "Less common", "Gradual onset; fatigue, pallor, shortness of breath"⟩,
     ⟨"Cardiac arrhythmia", "Less common", "Intermittent lightheadedness with palpitations"⟩,
     ⟨"Stroke / TIA", "Uncommon", "Dizziness with focal weakness, speech difficulty, vision changes; emergency"⟩]),
   ("back_pain",
    [⟨"Muscle strain / Mechanical back pain", "Very common", "Related to lifting, activity, or posture; improves with rest"⟩,
     ⟨"Degenerative disc disease", "Common", "Chronic; worsens with activity; common in older adults"⟩,
     ⟨"Herniated disc / Sciatica", "Less common", "Pain radiating down the leg; numbness or tingling"⟩,
     ⟨"Spinal stenosis", "Less common", "Pain with walking, relieved by sitting; older adults"⟩,
     ⟨"Kidney stones / Pyelonephritis", "Less common", "Flank pain; may have urinary symptoms or fever"⟩,
     ⟨"Vertebral compression fracture", "Uncommon", "Sudden pain after minor trauma; osteoporosis risk"⟩,
     ⟨"Cauda equina syndrome", "Rare", "Saddle numbness, bladder/bowel changes, bilateral leg weakness; emergency"⟩]),
   ("nausea_vomiting",
    [⟨"Gastroenteritis (stomach bug)", "Very common", "Viral or food-related; diarrhea often accompanies"⟩,
     ⟨"Food poisoning", "Common", "Acute onset hours after eating; shared with others who ate same food"⟩,
     ⟨"Medication side effect", "Common", "New medication or change in dosage"⟩,
     ⟨"Gastritis / Peptic ulcer", "Less common", "Epigastric pain; NSAID or alcohol use"⟩,
     ⟨"Pregnancy", "Less common", "Morning nausea in reproductive-age female; missed period"⟩,
     ⟨"Bowel obstruction", "Uncommon", "Severe vomiting with abdominal distension and no bowel movements"⟩,
     ⟨"Pancreatitis", "Uncommon", "Severe epigastric pain radiating to back; alcohol or gallstone history"⟩]),
   ("sore_throat",
    [⟨"Viral pharyngitis", "Very common", "Cough, congestion, runny nose; gradual onset"⟩,
     ⟨"Streptococcal pharyngitis (strep)", "Common", "Sudden onset; fever, swollen tonsils, no cough; rapid test available"⟩,
     ⟨"Infectious mononucleosis", "Less common", "Fatigue, swollen lymph nodes, possible splenomegaly; young adults"⟩,
     ⟨"Peritonsillar abscess", "Uncommon", "Severe unilateral pain, trismus, muffled voice; requires drainage"⟩]),
   ("cough",
    [⟨"Viral upper respiratory infection", "Very common", "Self-limited; congestion, sore throat"⟩,
     ⟨"Acute bronchitis", "Common", "Persistent cough 1-3 weeks; may produce sputum"⟩,
     ⟨"Asthma", "Common", "Cough worse at night or with exercise; wheezing"⟩,
     ⟨"Post-nasal drip", "Common", "Throat clearing; sensation of drainage; allergies or sinusitis"⟩,
     ⟨"Pneumonia", "Less common", "Cough with fever, shortness of breath, and abnormal breath sounds"⟩,
     ⟨"GERD-related cough", "Less common", "Chronic cough; heartburn; worse lying down"⟩]),
   ("rash",
    [⟨"Contact dermatitis", "Common", "Itchy rash after exposure to irritant or allergen"⟩,
     ⟨"Eczema (atopic dermatitis)", "Common", "Dry, itchy patches; often in skin folds; chronic/recurring"⟩,
     ⟨"Urticaria (hives)", "Common", "Raised, itchy welts; allergic trigger; comes and goes"⟩,
     ⟨"Cellulitis", "Less common", "Expanding redness, warmth, pain; may have fever; bacterial infection"⟩,
     ⟨"Shingles (herpes zoster)", "Less common", "Painful, blistering rash in a band/stripe; one side only"⟩,
     ⟨"Drug reaction", "Less common", "Rash after starting new medication"⟩]),
   ("urinary",
    [⟨"Urinary tract infection (UTI)", "Very common", "Burning, frequency, urgency; more common in women"⟩,
     ⟨"Kidney stones", "Less common", "Severe flank pain with blood in urine"⟩,
     ⟨"Pyelonephritis (kidney infection)", "Less common", "UTI symptoms plus fever, flank pain, nausea"⟩,
     ⟨"Benign prostatic hyperplasia", "Less common", "Weak stream, frequency, nocturia; older males"⟩,
     ⟨"Sexually transmitted infection", "Less common", "Dysuria with discharge; recent sexual exposure"⟩]),
   ("extremity_pain",
    [⟨"Musculoskeletal strain / Sprain", "Very common", "Related to activity or injury; localized pain and swelling"⟩,
     ⟨"Osteoarthritis", "Common", "Joint pain worse with use; stiffness in morning; older adults"⟩,
     ⟨"Tendinitis / Bursitis", "Common", "Pain around a joint with repetitive use"⟩,
     ⟨"Gout", "Less common", "Sudden severe joint pain (often big toe); redness, swelling"⟩,
     ⟨"Fracture", "Less common", "Pain after trauma; swelling, deformity, inability to bear weight"⟩,
     ⟨"Deep vein thrombosis (DVT)", "Uncommon", "Calf pain and swelling; risk with immobility, travel, birth control"⟩]),
   ("swelling",
    [⟨"Dependent edema", "Common", "Ankle/leg swelling worse at end of day; improves with elevation"⟩,
     ⟨"Venous insufficiency", "Common", "Chronic leg swelling with skin changes; varicose veins"⟩,
     ⟨"Heart failure", "Less common", "Bilateral leg swelling with shortness of breath; cardiac history"⟩,
     ⟨"Deep vein thrombosis", "Less common", "Unilateral leg swelling with calf pain; acute onset"⟩,
     ⟨"Cellulitis", "Less common", "Swelling with redness, warmth, and pain; may have fever"⟩]),
   ("eye_problem",
    [⟨"Conjunctivitis (pink eye)", "Common", "Red eye with discharge; itching (allergic) or crusting (infectious)"⟩,
     ⟨"Dry eye syndrome", "Common", "Gritty sensation; burning; worse with screen use"⟩,
     ⟨"Corneal abrasion", "Less common", "Sharp pain, tearing, light sensitivity after trauma or contact lens"⟩,
     ⟨"Migraine with visual aura", "Less common", "Visual changes (zigzag lines, spots) followed by headache"⟩,
     ⟨"Acute glaucoma", "Rare", "Severe eye pain, blurred vision, halos; nausea; emergency"⟩,
     ⟨"Retinal detachment", "Rare", "Flashes, floaters, curtain over vision; emergency"⟩]),
   ("injury_fall",
    [⟨"Soft tissue contusion / Bruise", "Very common", "Pain and bruising at impact site; no fracture"⟩,
     ⟨"Fracture", "Common", "Severe pain, swelling, deformity; inability to bear weight or use limb"⟩,
     ⟨"Sprain / Ligament injury", "Common", "Joint pain and instability; swelling around joint"⟩,
     ⟨"Concussion", "Less common", "Head injury with headache, dizziness, confusion; may have brief LOC"⟩,
     ⟨"Intracranial hemorrhage", "Rare", "Head injury with worsening headache, vomiting, altered consciousness; emergency"⟩]),
   ("fracture",
    [⟨"Simple fracture", "Common", "Localized pain, swelling, deformity after trauma"⟩,
     ⟨"Stress fracture", "Less common", "Gradual onset pain with repetitive activity; common in runners"⟩,
     ⟨"Pathologic fracture", "Uncommon", "Fracture from minimal trauma; may indicate osteoporosis or underlying disease"⟩]),
   ("pelvic_pain",
    [⟨"Menstrual cramps (dysmenorrhea)", "Common", "Cyclic lower abdominal pain; related to period"⟩,
     ⟨"Urinary tract infection", "Common", "Suprapubic pain with urinary symptoms"⟩,
     ⟨"Ovarian cyst", "Less common", "Unilateral pelvic pain; may be sudden if ruptured"⟩,
     ⟨"Pelvic inflammatory disease", "Less common", "Lower abdominal pain, discharge, fever; sexually active females"⟩,
     ⟨"Ectopic pregnancy", "Uncommon", "Pelvic pain with missed period; vaginal bleeding; emergency if ruptured"⟩,
     ⟨"Kidney stones", "Less common", "Flank-to-groin pain; hematuria; comes in waves"⟩])]

/-- `LIKELIHOOD_ORDER.get(likelihood, 3)`: ordinal rank of a likelihood. -/
def LIKELIHOOD_ORDER (s : String) : Nat :=
  if s = "Very common" then 1
  else if s = "Common" then 2
  else if s = "Less common" then 3
  else if s = "Uncommon" then 4
  else if s = "Rare" then 5
  else 3

/-- `_SERIOUS_MARKERS`: markers of serious conditions (a Python set; only
membership tests are performed on it, so a list is a faithful model). -/
def _SERIOUS_MARKERS : List String :=
  ["emergency", "medical emergency", "requires", "drainage",
   "heart attack", "stroke", "tia", "dissection", "embolism",
   "hemorrhage", "meningitis", "sepsis", "obstruction", "ectopic",
   "detachment", "glaucoma", "cauda equina", "intracranial",
   "fracture", "concussion", "appendicitis", "cholecystitis",
   "pyelonephritis", "pancreatitis", "heart failure"]

/-! ## Content builders (`src/app/evidence.py`) -/

/-- Table lookup with empty default (`dict.get(sym_id, [])`). -/
def watchForTable (symId : String) : List String :=
  (SYMPTOM_WATCH_FOR.lookup symId).getD []

/-- Table lookup with empty default (`dict.get(sym_id, [])`). -/
def escalationTable (symId : String) : List EscEntry :=
  (SYMPTOM_ESCALATION.lookup symId).getD []

/-- Table lookup with empty default (`dict.get(sym_id, [])`). -/
def homeRemedyTable (symId : String) : List Remedy :=
  (SYMPTOM_HOME_REMEDIES.lookup symId).getD []

/-- Table lookup with empty default (`dict.get(sym_id, [])`). -/
def diffTable (symId : String) : List DxEntry :=
  (SYMPTOM_DIFFERENTIALS.lookup symId).getD []

/-- The shared append-if-key-unseen step of all list builders: `acc.1` is
the output list, `acc.2` the `seen` set. -/
def dedupStep {α : Type} (key : α → String) (acc : List α × List String) (x : α) :
    List α × List String :=
  if key x ∈ acc.2 then acc else (acc.1 ++ [x], acc.2 ++ [key x])

/-- `_build_watch_for`: symptom warning signs then general fallback,
deduplicated by the sign text, truncated to 8. -/
def _build_watch_for (selected : List String) : List String :=
  let acc := selected.foldl
    (fun acc symId => (watchForTable symId).foldl (dedupStep id) acc) ([], [])
  let acc2 := GENERAL_WATCH_FOR.foldl (dedupStep id) acc
  acc2.1.take 8

/-- `_build_escalation`: symptom escalation statements then general
fallback, deduplicated by the `then_action` text, truncated to 8. -/
def _build_escalation (selected : List String) : List EscEntry :=
  let acc := selected.foldl
    (fun acc symId => (escalationTable symId).foldl (dedupStep EscEntry.then_action) acc)
    ([], [])
  let acc2 := GENERAL_ESCALATION.foldl (dedupStep EscEntry.then_action) acc
  acc2.1.take 8

/-- `_build_home_remedies`: symptom remedies deduplicated by remedy name;
the general list substitutes (never supplements) when no symptom matched;
truncated to 6.  The guard is the source's `if level > 5: return []`. -/
def _build_home_remedies (selected : List String) (level : Nat) : List Remedy :=
  if 5 < level then []
  else
    let acc := selected.foldl
      (fun acc symId => (homeRemedyTable symId).foldl (dedupStep Remedy.remedy) acc)
      ([], [])
    let acc2 :=
      if acc.1 = [] then GENERAL_HOME_REMEDIES.foldl (dedupStep Remedy.remedy) acc
      else acc
    acc2.1.take 6

/-! ## Differential diagnosis builder (`_build_differential`) -/

/-- The five-step likelihood scale (`order` in `_promote` / `_demote`). -/
def likScale : List String :=
  ["Rare", "Uncommon", "Less common", "Common", "Very common"]

/-- `_promote`: one step up the scale, clamped at the top; an unknown
likelihood is treated as index 2. -/
def _promote (likelihood : String) : String :=
  let idx := if likelihood ∈ likScale then likScale.indexOf likelihood else 2
  likScale.getD (min (idx + 1) 4) ""

/-- `_demote`: one step down the scale, clamped at the bottom (the
source's `max(idx - 1, 0)` coincides with truncated subtraction). -/
def _demote (likelihood : String) : String :=
  let idx := if likelihood ∈ likScale then likScale.indexOf likelihood else 2
  likScale.getD (idx - 1) ""

/-- `_acuity_score`: 0 for the diagnoses most relevant to the
recommendation level, 2 for the others. -/
def _acuity_score (dxDiagnosis dxNotes : String) (level : Nat) : Nat :=
  let text := lowerStr (dxDiagnosis ++ " " ++ dxNotes)
  let isSerious := _SERIOUS_MARKERS.any fun m => strIn m text
  if level ≤ 2 then (if isSerious then 0 else 2)
  else (if isSerious then 2 else 0)

/-- `patient_state.age or 40` (Python `or`: `None` and `0` are falsy). -/
def effAge (st : PatientState) : Int :=
  match st.age with
  | none => 40
  | some a => if a = 0 then 40 else a

/-- `patient_state.sex or "unknown"` (Python `or`: `None` and `""` are
falsy). -/
def effSex (st : PatientState) : String :=
  match st.sex with
  | none => "unknown"
  | some s => if s = "" then "unknown" else s

/-- The likelihood-adjustment cascade of `_build_differential`: each rule
recomputes from the base likelihood `baseLik` (never from the previous
assignment), so the last matching rule wins. -/
def adjLik (notesL : String) (baseLik : String) (age : Int) (pmh : List String) :
    String :=
  let l1 := if strIn "older adults" notesL ∧ age < 40 then _demote baseLik else baseLik
  let l2 := if strIn "younger patients" notesL ∧ 60 ≤ age then _demote baseLik else l1
  let l3 := if strIn "diabetes" notesL ∧ "Diabetes" ∈ pmh then _promote baseLik else l2
  let l4 := if strIn "cardiac" notesL ∧ "Heart Problems" ∈ pmh then _promote baseLik else l3
  if strIn "osteoporosis" notesL ∧ 65 ≤ age then _promote baseLik else l4

/-- One produced differential entry (`entry = dict(dx)` plus
`source_symptom`, with the adjusted likelihood). -/
structure DiffEntry where
  diagnosis : String
  likelihood : String
  notes : String
  source_symptom : String
deriving DecidableEq

/-- The body of the differential loop for one catalogue entry: the two
exclusion rules (the source's `continue`s) and the adjustment cascade.
In the source the two demotion assignments textually precede the
`continue`s, but an excluded entry is discarded, so the result is the
same. -/
def adjustEntry (dx : DxEntry) (symId : String) (st : PatientState) :
    Option DiffEntry :=
  let notesL := lowerStr dx.notes
  if strIn "reproductive-age female" notesL ∧ effSex st = "male" then none
  else if strIn "older males" notesL ∧ effSex st = "female" then none
  else some
    { diagnosis := dx.diagnosis
      likelihood := adjLik notesL dx.likelihood (effAge st) st.pmh
      notes := dx.notes
      source_symptom := symId }

/-- Stable insertion of `x` after every `y` with `le y x` (keeps equal
keys in arrival order). -/
def insertSorted {α : Type} (le : α → α → Bool) (x : α) : List α → List α
  | [] => [x]
  | y :: ys => if le y x then y :: insertSorted le x ys else x :: y :: ys

/-- Stable ascending sort, modelling Python's stable `list.sort`. -/
def pySort {α : Type} (le : α → α → Bool) (l : List α) : List α :=
  l.foldl (fun acc x => insertSorted le x acc) []

/-- Lexicographic comparison of the `(acuity, likelihood-order)` sort
keys (Python tuple comparison). -/
def keyLe (a b : Nat × Nat) : Bool :=
  decide (a.1 < b.1) || (a.1 == b.1 && decide (a.2 ≤ b.2))

/-- The sort key `(acuity score, likelihood order)` of one entry. -/
def diffSortKey (level : Nat) (e : DiffEntry) : Nat × Nat :=
  (_acuity_score e.diagnosis e.notes level, LIKELIHOOD_ORDER e.likelihood)

/-- The collection loop of `_build_differential`: `differentials` and
`seen_dx` accumulated over the selected symptoms (first occurrence of a
diagnosis wins; an excluded entry does not mark its name as seen). -/
def diffCollect (selected : List String) (st : PatientState) :
    List DiffEntry × List String :=
  selected.foldl
    (fun acc symId =>
      (diffTable symId).foldl
        (fun acc dx =>
          if dx.diagnosis ∈ acc.2 then acc
          else
            match adjustEntry dx symId st with
            | none => acc
            | some e => (acc.1 ++ [e], acc.2 ++ [dx.diagnosis]))
        acc)
    ([], [])

/-- `_build_differential`: collect adjusted entries deduplicated by
diagnosis name, sort by `(acuity, likelihood)` with Python's stable sort
(modelled by decorating each entry with its key, computed once, as
`sort(key=...)` does), and keep the top 3. -/
def _build_differential (selected : List String) (st : PatientState) (level : Nat) :
    List DiffEntry :=
  let sorted := (pySort (fun a b => keyLe a.1 b.1)
    ((diffCollect selected st).1.map fun e => (diffSortKey level e, e))).map Prod.snd
  sorted.take 3

/-! ## `get_evidence` risk percentages -/

/-- The prediction record consumed by `get_evidence`. -/
structure Prediction where
  level : Option Nat
  label : String
  probabilities : Nat → Option ℚ
  red_flag : Option RedFlag
  risk_factors : List String

/-- `probas.get(1, 0)`. -/
def prob1 (pred : Prediction) : ℚ :=
  (pred.probabilities 1).getD 0

/-- `probas.get(2, 0)`. -/
def prob2 (pred : Prediction) : ℚ :=
  (pred.probabilities 2).getD 0

/-- `immediate_pct` before the red-flag override. -/
def immediateBase (pred : Prediction) : ℚ :=
  round1 (prob1 pred * 100)

/-- `hosp_pct` before the red-flag override (rounded, then capped at 95). -/
def hospBase (kb : KB) (selected : List String) (pred : Prediction) : ℚ :=
  min (round1 (max (pubAdmission kb selected) (prob1 pred * pubAdmission kb selected * 2))) 95

/-- `p_serious` before the red-flag override. -/
def pSeriousBase (pred : Prediction) : ℚ :=
  round1 (min ((prob1 pred + prob2 pred) * 100) 99)

/-- The Evidence record (the fields of the result the claims are about:
the three `risk_pcts` values, the `p_serious` value that is computed in
`get_evidence` and fed to the reassurance builder, and the four content
lists; the narrative strings are not modelled). -/
structure Evidence where
  immediate_attention : ℚ
  hospitalization : ℚ
  death : ℚ
  p_serious : ℚ
  watch_for : List String
  escalation : List EscEntry
  home_remedies : List Remedy
  differential : List DiffEntry

/-- `get_evidence`: resolve the published rates, compute the risk
percentages, apply the red-flag overrides, and build the content lists
(`level = prediction.get("level", 3)`). -/
def get_evidence (kb : KB) (st : PatientState) (pred : Prediction) : Evidence :=
  let pub_admission := pubAdmission kb st.selected_symptoms
  let immediate_pct :=
    if pred.red_flag.isSome then max (immediateBase pred) 95 else immediateBase pred
  let hosp_pct :=
    if pred.red_flag.isSome then max (hospBase kb st.selected_symptoms pred) pub_admission
    else hospBase kb st.selected_symptoms pred
  let death_pct := round1 (pubMortality kb st.selected_symptoms)
  let p_serious :=
    if pred.red_flag.isSome then max (pSeriousBase pred) 95 else pSeriousBase pred
  let level := pred.level.getD 3
  { immediate_attention := immediate_pct
    hospitalization := hosp_pct
    death := death_pct
    p_serious := p_serious
    watch_for := _build_watch_for st.selected_symptoms
    escalation := _build_escalation st.selected_symptoms
    home_remedies := _build_home_remedies st.selected_symptoms level
    differential := _build_differential st.selected_symptoms st level }

/-! ## Claims about the risk percentages (C1, C4, C7) -/

/-- All per-level probabilities of a prediction lie in `[0, 1]`. -/
def probsBounded (pred : Prediction) : Prop :=
  ∀ l q, pred.probabilities l = some q → 0 ≤ q ∧ q ≤ 1

/-- All reference rates of a knowledge base lie in `[0, 100]`. -/
def kbBounded (kb : KB) : Prop :=
  (0 ≤ kb.overall_admission_rate ∧ kb.overall_admission_rate ≤ 100) ∧
  (0 ≤ kb.overall_seven_day_mortality ∧ kb.overall_seven_day_mortality ≤ 100) ∧
  ∀ s r, kb.by_symptom s = some r →
    (0 ≤ r.admission_rate ∧ r.admission_rate ≤ 100) ∧
    (0 ≤ r.mortality_rate ∧ r.mortality_rate ≤ 100)

theorem prob1_bounds {pred : Prediction} (hp : probsBounded pred) :
    0 ≤ prob1 pred ∧ prob1 pred ≤ 1 := by
  unfold prob1
  cases h : pred.probabilities 1 with
  | none => exact ⟨le_refl 0, by norm_num⟩
  | some q => exact hp 1 q h

theorem prob2_bounds {pred : Prediction} (hp : probsBounded pred) :
    0 ≤ prob2 pred ∧ prob2 pred ≤ 1 := by
  unfold prob2
  cases h : pred.probabilities 2 with
  | none => exact ⟨le_refl 0, by norm_num⟩
  | some q => exact hp 2 q h

theorem pubAdmission_bounds {kb : KB} (selected : List String) (hk : kbBounded kb) :
    0 ≤ pubAdmission kb selected ∧ pubAdmission kb selected ≤ 100 := by
  unfold pubAdmission
  split
  · exact hk.1
  · next hne =>
    have hmem := listMax_mem hne
    rw [matchedRates_adm, List.mem_filterMap] at hmem
    obtain ⟨s, _, hr⟩ := hmem
    cases hx : kb.by_symptom s with
    | none => rw [hx] at hr; cases hr
    | some r =>
      rw [hx] at hr
      have := (hk.2.2 s r hx).1
      have hv : r.admission_rate = listMax (matchedRates kb selected).adm := by
        rw [matchedRates_adm]
        exact Option.some.inj hr
      rw [← hv]
      exact this

theorem pubMortality_bounds {kb : KB} (selected : List String) (hk : kbBounded kb) :
    0 ≤ pubMortality kb selected ∧ pubMortality kb selected ≤ 100 := by
  unfold pubMortality
  split
  · exact hk.2.1
  · next hne =>
    have hnem : (matchedRates kb selected).mort ≠ [] := by
      intro h
      rw [matchedRates_mort, List.filterMap_eq_nil_iff] at h
      refine hne ?_
      rw [matched_adm_nil_iff]
      intro s hs
      have := h s hs
      cases hx : kb.by_symptom s with
      | none => rfl
      | some r => rw [hx] at this; cases this
    have hmem := listMax_mem hnem
    rw [matchedRates_mort, List.mem_filterMap] at hmem
    obtain ⟨s, _, hr⟩ := hmem
    cases hx : kb.by_symptom s with
    | none => rw [hx] at hr; cases hr
    | some r =>
      rw [hx] at hr
      have := (hk.2.2 s r hx).2
      have hv : r.mortality_rate = listMax (matchedRates kb selected).mort := by
        rw [matchedRates_mort]
        exact Option.some.inj hr
      rw [← hv]
      exact this

/-- C1: whenever the prediction carries a red flag, the Evidence satisfies
`immediate_attention_pct ≥ 95`, `hospitalization_pct ≥ pub_admission`
(the resolved published admission rate for that input) and
`p_serious ≥ 95`, the overrides being applied on top of the base
formulas. -/
theorem C1_red_flag_override (kb : KB) (st : PatientState) (pred : Prediction)
    (h : pred.red_flag.isSome = true) :
    95 ≤ (get_evidence kb st pred).immediate_attention ∧
    pubAdmission kb st.selected_symptoms ≤ (get_evidence kb st pred).hospitalization ∧
    95 ≤ (get_evidence kb st pred).p_serious := by
  unfold get_evidence
  rw [h]
  exact ⟨le_max_right _ _, le_max_right _ _, le_max_right _ _⟩

theorem min_round1_95 (x : ℚ) : min (round1 x) 95 = round1 (min x 95) := by
  have h95 : oneDec (95 : ℚ) := ⟨950, by norm_num⟩
  rcases le_total x 95 with h | h
  · rw [min_eq_left h, min_eq_left (round1_le_oneDec h95 h)]
  · rw [min_eq_right h, round1_oneDec h95]
    refine min_eq_right ?_
    have := round1_mono h
    rwa [round1_oneDec h95] at this

/-- Scenario A knowledge base: `chest_pain` with published
`admission_rate = 42.0` and `mortality_rate = 0.3`. -/
def kbScenA : KB :=
  { overall_admission_rate := 13
    overall_seven_day_mortality := 1
    by_symptom := fun s =>
      if s = "chest_pain" then some ⟨42, 3/10, "CDC NHAMCS"⟩ else none }

/-- Scenario A patient: `selected_symptoms = ["chest_pain"]`. -/
def stScenA : PatientState :=
  { emptyState with selected_symptoms := ["chest_pain"] }

/-- Scenario A prediction: `probabilities = {1: 0.8, 2: 0.1}`, no red
flag. -/
def predScenA : Prediction :=
  { level := some 1
    label := "Emergency Department"
    probabilities := fun l => if l = 1 then some (4/5) else if l = 2 then some (1/10) else none
    red_flag := none
    risk_factors := [] }

theorem pubAdmission_scenA : pubAdmission kbScenA ["chest_pain"] = 42 := by
  have : (matchedRates kbScenA ["chest_pain"]).adm = [42] := by
    rw [matchedRates_adm]
    simp [kbScenA]
  unfold pubAdmission
  rw [this]
  norm_num [listMax]

theorem pubMortality_scenA : pubMortality kbScenA ["chest_pain"] = 3/10 := by
  have hadm : (matchedRates kbScenA ["chest_pain"]).adm = [42] := by
    rw [matchedRates_adm]
    simp [kbScenA]
  have hmort : (matchedRates kbScenA ["chest_pain"]).mort = [3/10] := by
    rw [matchedRates_mort]
    simp [kbScenA]
  unfold pubMortality
  rw [hadm, hmort]
  norm_num [listMax]

/-- C4: the four risk percentages are computed by the stated formulas
(absent a red flag), and on Scenario A — `chest_pain`, probabilities
`{1: 0.8, 2: 0.1}`, no red flag, published rates 42.0 / 0.3 — they
evaluate to 80.0, 67.2, 0.3 and 90.0. -/
theorem C4_formulas :
    (∀ (kb : KB) (st : PatientState) (pred : Prediction), pred.red_flag = none →
      (get_evidence kb st pred).immediate_attention = round1 (prob1 pred * 100) ∧
      (get_evidence kb st pred).hospitalization =
        round1 (min (max (pubAdmission kb st.selected_symptoms)
          (prob1 pred * pubAdmission kb st.selected_symptoms * 2)) 95) ∧
      (get_evidence kb st pred).death = round1 (pubMortality kb st.selected_symptoms) ∧
      (get_evidence kb st pred).p_serious =
        round1 (min ((prob1 pred + prob2 pred) * 100) 99)) ∧
    ((get_evidence kbScenA stScenA predScenA).immediate_attention = 80 ∧
     (get_evidence kbScenA stScenA predScenA).hospitalization = 336/5 ∧
     (get_evidence kbScenA stScenA predScenA).death = 3/10 ∧
     (get_evidence kbScenA stScenA predScenA).p_serious = 90) := by
  have hgen : ∀ (kb : KB) (st : PatientState) (pred : Prediction), pred.red_flag = none →
      (get_evidence kb st pred).immediate_attention = round1 (prob1 pred * 100) ∧
      (get_evidence kb st pred).hospitalization =
        round1 (min (max (pubAdmission kb st.selected_symptoms)
          (prob1 pred * pubAdmission kb st.selected_symptoms * 2)) 95) ∧
      (get_evidence kb st pred).death = round1 (pubMortality kb st.selected_symptoms) ∧
      (get_evidence kb st pred).p_serious =
        round1 (min ((prob1 pred + prob2 pred) * 100) 99) := by
    intro kb st pred h
    unfold get_evidence
    rw [h]
    refine ⟨rfl, ?_, rfl, rfl⟩
    show hospBase kb st.selected_symptoms pred = _
    unfold hospBase
    rw [min_round1_95]
  refine ⟨hgen, ?_⟩
  have h := hgen kbScenA stScenA predScenA rfl
  have hsel : stScenA.selected_symptoms = ["chest_pain"] := rfl
  have hp1 : prob1 predScenA = 4/5 := rfl
  have hp2 : prob2 predScenA = 1/10 := rfl
  refine ⟨?_, ?_, ?_, ?_⟩
  · rw [h.1, hp1]
    norm_num [round1, round_eq]
  · rw [h.2.1, hsel, pubAdmission_scenA, hp1]
    norm_num [round1, round_eq]
  · rw [h.2.2.1, hsel, pubMortality_scenA]
    norm_num [round1, round_eq]
  · rw [h.2.2.2, hp1, hp2]
    norm_num [round1, round_eq]

/-- Witness for C4's general part at Scenario A. -/
theorem C4_witness :
    (get_evidence kbScenA stScenA predScenA).immediate_attention
      = round1 (prob1 predScenA * 100) :=
  (C4_formulas.1 kbScenA stScenA predScenA rfl).1

/-- C7 counterexample knowledge base: a published admission rate of
`0.04`, which is not a one-decimal value. -/
def kbCx : KB :=
  { overall_admission_rate := 0
    overall_seven_day_mortality := 0
    by_symptom := fun s =>
      if s = "chest_pain" then some ⟨1/25, 0, "src"⟩ else none }

/-- C7 counterexample patient. -/
def stCx : PatientState :=
  { emptyState with selected_symptoms := ["chest_pain"] }

/-- C7 counterexample prediction: a red flag and no probability mass. -/
def predCx : Prediction :=
  { level := some 1
    label := ""
    probabilities := fun _ => none
    red_flag := some ⟨"rf", "RF", "msg", 1⟩
    risk_factors := [] }

/-- Witness for C1 at a concrete red-flag input. -/
theorem C1_witness :
    95 ≤ (get_evidence kbCx stCx predCx).immediate_attention ∧
    pubAdmission kbCx stCx.selected_symptoms ≤ (get_evidence kbCx stCx predCx).hospitalization ∧
    95 ≤ (get_evidence kbCx stCx predCx).p_serious :=
  C1_red_flag_override kbCx stCx predCx rfl

/-- Witness for C5 at a concrete matching selection. -/
theorem C5_witness :
    ∃ s ∈ ["chest_pain"], ∃ r, kbScenA.by_symptom s = some r ∧
      pubAdmission kbScenA ["chest_pain"] = r.admission_rate :=
  ((C5_reference_resolution kbScenA ["chest_pain"]).1
    ⟨"chest_pain", List.mem_cons_self _ _, rfl⟩).1

/-- C7 amended: with probabilities in `[0,1]` and reference rates in
`[0,100]`, all four risk values lie in `[0,100]`;
`immediate_attention`, `death` and `p_serious` are always one-decimal
values; the pre-override `hospitalization` is a one-decimal value and
`≤ 95`, and it is the published value whenever no red flag is present —
but with a red flag, `hospitalization = max(pre-override, pub_admission)`
need not be a one-decimal value and may exceed 95 (it stays `≤ 100`). -/
theorem C7_amended (kb : KB) (st : PatientState) (pred : Prediction)
    (hp : probsBounded pred) (hk : kbBounded kb) :
    (0 ≤ (get_evidence kb st pred).immediate_attention ∧
      (get_evidence kb st pred).immediate_attention ≤ 100) ∧
    (0 ≤ (get_evidence kb st pred).hospitalization ∧
      (get_evidence kb st pred).hospitalization ≤ 100) ∧
    (0 ≤ (get_evidence kb st pred).death ∧ (get_evidence kb st pred).death ≤ 100) ∧
    (0 ≤ (get_evidence kb st pred).p_serious ∧ (get_evidence kb st pred).p_serious ≤ 100) ∧
    oneDec (get_evidence kb st pred).immediate_attention ∧
    oneDec (get_evidence kb st pred).death ∧
    oneDec (get_evidence kb st pred).p_serious ∧
    (0 ≤ hospBase kb st.selected_symptoms pred ∧
      hospBase kb st.selected_symptoms pred ≤ 95 ∧
      oneDec (hospBase kb st.selected_symptoms pred)) ∧
    (pred.red_flag = none →
      (get_evidence kb st pred).hospitalization = hospBase kb st.selected_symptoms pred) := by
  have h100 : oneDec (100 : ℚ) := ⟨1000, by norm_num⟩
  have h99 : oneDec (99 : ℚ) := ⟨990, by norm_num⟩
  have h95 : oneDec (95 : ℚ) := ⟨950, by norm_num⟩
  have hpub := pubAdmission_bounds st.selected_symptoms hk
  have hpm := pubMortality_bounds st.selected_symptoms hk
  have hp1 := prob1_bounds hp
  have hp2 := prob2_bounds hp
  have him : 0 ≤ immediateBase pred ∧ immediateBase pred ≤ 100 := by
    constructor
    · exact round1_nonneg (by nlinarith [hp1.1])
    · exact round1_le_oneDec h100 (by nlinarith [hp1.2])
  have hhb : 0 ≤ hospBase kb st.selected_symptoms pred ∧
      hospBase kb st.selected_symptoms pred ≤ 95 := by
    constructor
    · refine le_min ?_ (by norm_num)
      exact round1_nonneg (le_trans hpub.1 (le_max_left _ _))
    · exact min_le_right _ _
  have hps : 0 ≤ pSeriousBase pred ∧ pSeriousBase pred ≤ 99 := by
    constructor
    · refine round1_nonneg (le_min (by nlinarith [hp1.1, hp2.1]) (by norm_num))
    · exact round1_le_oneDec h99 (min_le_right _ _)
  have hdb : 0 ≤ round1 (pubMortality kb st.selected_symptoms) ∧
      round1 (pubMortality kb st.selected_symptoms) ≤ 100 :=
    ⟨round1_nonneg hpm.1, round1_le_oneDec h100 hpm.2⟩
  refine ⟨?_, ?_, ?_, ?_, ?_, ?_, ?_, ⟨hhb.1, hhb.2, oneDec_min (oneDec_round1 _) h95⟩, ?_⟩
  · unfold get_evidence
    split
    · exact ⟨le_trans him.1 (le_max_left _ _), max_le him.2 (by norm_num)⟩
    · exact him
  · unfold get_evidence
    split
    · exact ⟨le_trans hhb.1 (le_max_left _ _),
        max_le (le_trans hhb.2 (by norm_num)) hpub.2⟩
    · exact ⟨hhb.1, le_trans hhb.2 (by norm_num)⟩
  · exact hdb
  · unfold get_evidence
    split
    · exact ⟨le_trans hps.1 (le_max_left _ _),
        max_le (le_trans hps.2 (by norm_num)) (by norm_num)⟩
    · exact ⟨hps.1, le_trans hps.2 (by norm_num)⟩
  · unfold get_evidence
    split
    · exact oneDec_max (oneDec_round1 _) h95
    · exact oneDec_round1 _
  · exact oneDec_round1 _
  · unfold get_evidence
    split
    · exact oneDec_max (oneDec_round1 _) h95
    · exact oneDec_round1 _
  · intro h
    unfold get_evidence
    rw [h]
    rfl

/-- Witness for C7 amended at a concrete input. -/
theorem C7_witness :
    0 ≤ (get_evidence kbScenA stScenA predScenA).immediate_attention ∧
    (get_evidence kbScenA stScenA predScenA).immediate_attention ≤ 100 := by
  refine (C7_amended kbScenA stScenA predScenA ?_ ?_).1
  · intro l q h
    have h' : (if l = 1 then some ((4 : ℚ)/5) else if l = 2 then some (1/10) else none)
        = some q := h
    by_cases h1 : l = 1
    · rw [if_pos h1] at h'
      cases h'
      norm_num
    · rw [if_neg h1] at h'
      by_cases h2 : l = 2
      · rw [if_pos h2] at h'
        cases h'
        norm_num
      · rw [if_neg h2] at h'
        cases h'
  · refine ⟨by norm_num [kbScenA], by norm_num [kbScenA], ?_⟩
    intro s r h
    have h' : (if s = "chest_pain"
        then some (⟨42, 3/10, "CDC NHAMCS"⟩ : SymRates) else none) = some r := h
    by_cases hs : s = "chest_pain"
    · rw [if_pos hs] at h'
      cases h'
      norm_num
    · rw [if_neg hs] at h'
      cases h'

/-- C7 counterexample: with a red flag and published admission rate
`0.04` (probabilities all absent, rates within `[0,100]`), the Evidence's
`hospitalization` equals `0.04`, which is not a one-decimal value — so
the claim's "rounded to one decimal place" fails post-override. -/
theorem C7_counterexample :
    (get_evidence kbCx stCx predCx).hospitalization = 1/25 ∧
    ¬ oneDec ((get_evidence kbCx stCx predCx).hospitalization) ∧
    probsBounded predCx ∧ kbBounded kbCx := by
  have hpub : pubAdmission kbCx stCx.selected_symptoms = 1/25 := by
    have : (matchedRates kbCx ["chest_pain"]).adm = [1/25] := by
      rw [matchedRates_adm]
      simp [kbCx]
    show pubAdmission kbCx ["chest_pain"] = 1/25
    unfold pubAdmission
    rw [this]
    norm_num [listMax]
  have hp1 : prob1 predCx = 0 := rfl
  have hhosp : (get_evidence kbCx stCx predCx).hospitalization = 1/25 := by
    have hbase : hospBase kbCx stCx.selected_symptoms predCx = 0 := by
      unfold hospBase
      rw [hpub, hp1]
      norm_num [round1, round_eq]
    have hred : (get_evidence kbCx stCx predCx).hospitalization
        = max (hospBase kbCx stCx.selected_symptoms predCx)
            (pubAdmission kbCx stCx.selected_symptoms) := rfl
    rw [hred, hbase, hpub]
    norm_num
  refine ⟨hhosp, ?_, ?_, ?_⟩
  · rw [hhosp]
    rintro ⟨n, hn⟩
    rw [div_eq_div_iff (by norm_num) (by norm_num)] at hn
    have hz : (10 : ℤ) = n * 25 := by exact_mod_cast hn
    omega
  · intro l q h
    have h' : (none : Option ℚ) = some q := h
    cases h'
  · refine ⟨by norm_num [kbCx], by norm_num [kbCx], ?_⟩
    intro s r h
    have h' : (if s = "chest_pain"
        then some (⟨1/25, 0, "src"⟩ : SymRates) else none) = some r := h
    by_cases hs : s = "chest_pain"
    · rw [if_pos hs] at h'
      cases h'
      norm_num
    · rw [if_neg hs] at h'
      cases h'

/-! ## Claim C2: the home-remedy suppression guard -/

/-- C2: evaluation of `_build_home_remedies` at the failing input.  The
guard `if level > 5: return []` never fires for levels 1-5, so at level 1
(and level 4) the list is not empty — the suppression required by the
claim and by the code's own comment ("shown for Level 5 reassurance")
does not happen.  The same shows through `get_evidence` (Scenario A has
level 1: `chest_pain` has no remedy entry, so the general fallback list
is returned). -/
theorem C2_code_evaluation :
    (_build_home_remedies ["headache"] 1).length = 5 ∧
    _build_home_remedies ["headache"] 1 ≠ [] ∧
    _build_home_remedies ["headache"] 4 ≠ [] ∧
    (get_evidence kbScenA stScenA predScenA).home_remedies ≠ [] := by
  refine ⟨by decide, by decide, by decide, by decide⟩

/-! ## Deduplication invariants for the list builders (C6) -/

theorem foldl_pres {β γ : Type} (Q : β → Prop) (f : β → γ → β)
    (h : ∀ acc x, Q acc → Q (f acc x)) :
    ∀ (l : List γ) (acc : β), Q acc → Q (l.foldl f acc) := by
  intro l
  induction l with
  | nil => intro acc hq; exact hq
  | cons x xs ih =>
    intro acc hq
    rw [List.foldl_cons]
    exact ih _ (h _ _ hq)

theorem foldl_pres_mem {β γ : Type} (Q : β → Prop) :
    ∀ (l : List γ) (f : β → γ → β),
      (∀ acc x, x ∈ l → Q acc → Q (f acc x)) →
      ∀ acc : β, Q acc → Q (l.foldl f acc) := by
  intro l
  induction l with
  | nil => intro f _ acc hq; exact hq
  | cons x xs ih =>
    intro f h acc hq
    rw [List.foldl_cons]
    exact ih f (fun acc y hy hq' => h acc y (List.mem_cons_of_mem x hy) hq') _
      (h acc x (List.mem_cons_self x xs) hq)

/-- The invariant of the dedup-then-cap pattern: the keys of the output
are pairwise distinct and all recorded in `seen`. -/
def DedupInv {α : Type} (key : α → String) (acc : List α × List String) : Prop :=
  (acc.1.map key).Nodup ∧ ∀ x ∈ acc.1, key x ∈ acc.2

theorem DedupInv_nil {α : Type} (key : α → String) : DedupInv key ([], []) :=
  ⟨List.nodup_nil, by intro x hx; cases hx⟩

theorem dedupStep_pres {α : Type} (key : α → String) :
    ∀ (acc : List α × List String) (x : α),
      DedupInv key acc → DedupInv key (dedupStep key acc x) := by
  intro acc x h
  obtain ⟨h1, h2⟩ := h
  unfold dedupStep
  split
  · exact ⟨h1, h2⟩
  · next hnot =>
    constructor
    · rw [List.map_append]
      refine List.Nodup.append h1 (List.nodup_singleton _) ?_
      intro a ha hb
      have hax : a = key x := by simpa using hb
      subst hax
      obtain ⟨y, hy, hyk⟩ := List.mem_map.mp ha
      exact hnot (hyk ▸ h2 y hy)
    · intro y hy
      rcases List.mem_append.mp hy with h' | h'
      · exact List.mem_append.mpr (Or.inl (h2 y h'))
      · have : y = x := by simpa using h'
        subst this
        exact List.mem_append.mpr (Or.inr (by simp))

theorem take_length_le {α : Type} (n : Nat) (l : List α) : (l.take n).length ≤ n := by
  rw [List.length_take]
  exact min_le_left _ _

theorem watch_for_bounds (selected : List String) :
    (_build_watch_for selected).length ≤ 8 ∧ (_build_watch_for selected).Nodup := by
  have hinv : DedupInv id
      (GENERAL_WATCH_FOR.foldl (dedupStep id)
        (selected.foldl (fun acc symId => (watchForTable symId).foldl (dedupStep id) acc)
          ([], []))) := by
    refine foldl_pres _ _ (dedupStep_pres id) _ _ ?_
    refine foldl_pres _ _ (fun acc symId hq => foldl_pres _ _ (dedupStep_pres id) _ _ hq) _ _ ?_
    exact DedupInv_nil id
  refine ⟨take_length_le 8 _, ?_⟩
  have hnodup : (GENERAL_WATCH_FOR.foldl (dedupStep id)
      (selected.foldl (fun acc symId => (watchForTable symId).foldl (dedupStep id) acc)
        ([], []))).1.Nodup := by
    have := hinv.1
    rwa [List.map_id] at this
  exact (List.take_sublist 8 _).nodup hnodup

theorem nodup_map_take {α β : Type} (f : α → β) (n : Nat) (l : List α)
    (h : (l.map f).Nodup) : ((l.take n).map f).Nodup := by
  rw [List.map_take]
  exact (List.take_sublist n _).nodup h

theorem escalation_bounds (selected : List String) :
    (_build_escalation selected).length ≤ 8 ∧
    ((_build_escalation selected).map EscEntry.then_action).Nodup := by
  have hinv : DedupInv EscEntry.then_action
      (GENERAL_ESCALATION.foldl (dedupStep EscEntry.then_action)
        (selected.foldl
          (fun acc symId => (escalationTable symId).foldl (dedupStep EscEntry.then_action) acc)
          ([], []))) := by
    refine foldl_pres (DedupInv EscEntry.then_action) _ (dedupStep_pres _) _ _ ?_
    refine foldl_pres (DedupInv EscEntry.then_action) _
      (fun acc symId hq =>
        foldl_pres (DedupInv EscEntry.then_action) _ (dedupStep_pres _) _ _ hq) _ _ ?_
    exact DedupInv_nil _
  exact ⟨take_length_le 8 _, nodup_map_take EscEntry.then_action 8 _ hinv.1⟩

theorem home_remedies_bounds (selected : List String) (level : Nat) :
    (_build_home_remedies selected level).length ≤ 6 ∧
    ((_build_home_remedies selected level).map Remedy.remedy).Nodup := by
  have hinvacc : DedupInv Remedy.remedy
      (selected.foldl
        (fun acc symId => (homeRemedyTable symId).foldl (dedupStep Remedy.remedy) acc)
        ([], [])) := by
    refine foldl_pres (DedupInv Remedy.remedy) _
      (fun acc symId hq =>
        foldl_pres (DedupInv Remedy.remedy) _ (dedupStep_pres _) _ _ hq) _ _ ?_
    exact DedupInv_nil _
  have hinv : DedupInv Remedy.remedy
      (if (selected.foldl
            (fun acc symId => (homeRemedyTable symId).foldl (dedupStep Remedy.remedy) acc)
            ([], [])).1 = []
       then GENERAL_HOME_REMEDIES.foldl (dedupStep Remedy.remedy)
              (selected.foldl
                (fun acc symId => (homeRemedyTable symId).foldl (dedupStep Remedy.remedy) acc)
                ([], []))
       else selected.foldl
              (fun acc symId => (homeRemedyTable symId).foldl (dedupStep Remedy.remedy) acc)
              ([], [])) := by
    split
    · exact foldl_pres (DedupInv Remedy.remedy) _ (dedupStep_pres _) _ _ hinvacc
    · exact hinvacc
  unfold _build_home_remedies
  split
  · exact ⟨by simp, by simp⟩
  · exact ⟨take_length_le 6 _, nodup_map_take Remedy.remedy 6 _ hinv.1⟩

theorem adjustEntry_some {dx : DxEntry} {symId : String} {st : PatientState}
    {e : DiffEntry} (h : adjustEntry dx symId st = some e) :
    e.diagnosis = dx.diagnosis ∧ e.notes = dx.notes ∧ e.source_symptom = symId ∧
    e.likelihood = adjLik (lowerStr dx.notes) dx.likelihood (effAge st) st.pmh ∧
    ¬ (strIn "reproductive-age female" (lowerStr dx.notes) = true ∧ effSex st = "male") ∧
    ¬ (strIn "older males" (lowerStr dx.notes) = true ∧ effSex st = "female") := by
  simp only [adjustEntry] at h
  split at h
  · cases h
  · next h1 =>
    split at h
    · cases h
    · next h2 =>
      cases h
      exact ⟨rfl, rfl, rfl, rfl, h1, h2⟩

/-- The invariant of the differential collection loop: dedup by diagnosis
plus provenance of every produced entry. -/
def DiffInv (st : PatientState) (acc : List DiffEntry × List String) : Prop :=
  (acc.1.map DiffEntry.diagnosis).Nodup ∧
  (∀ x ∈ acc.1, x.diagnosis ∈ acc.2) ∧
  ∀ x ∈ acc.1, ∃ dx, dx ∈ diffTable x.source_symptom ∧
    adjustEntry dx x.source_symptom st = some x

theorem diffStep_pres {st : PatientState} {symId : String}
    {acc : List DiffEntry × List String} {dx : DxEntry}
    (hdx : dx ∈ diffTable symId) (hq : DiffInv st acc) :
    DiffInv st
      (if dx.diagnosis ∈ acc.2 then acc
       else
         match adjustEntry dx symId st with
         | none => acc
         | some e => (acc.1 ++ [e], acc.2 ++ [dx.diagnosis])) := by
  obtain ⟨h1, h2, h3⟩ := hq
  split
  · exact ⟨h1, h2, h3⟩
  · next hnot =>
    cases hadj : adjustEntry dx symId st with
    | none => exact ⟨h1, h2, h3⟩
    | some e =>
      obtain ⟨hd, hn, hs, _, _, _⟩ := adjustEntry_some hadj
      refine ⟨?_, ?_, ?_⟩
      · rw [List.map_append]
        refine List.Nodup.append h1 (List.nodup_singleton _) ?_
        intro a ha hb
        have hax : a = e.diagnosis := by simpa using hb
        subst hax
        obtain ⟨y, hy, hyk⟩ := List.mem_map.mp ha
        rw [hd] at hyk
        exact hnot (hyk ▸ h2 y hy)
      · intro y hy
        rcases List.mem_append.mp hy with h' | h'
        · exact List.mem_append.mpr (Or.inl (h2 y h'))
        · have : y = e := by simpa using h'
          subst this
          rw [hd]
          exact List.mem_append.mpr (Or.inr (by simp))
      · intro y hy
        rcases List.mem_append.mp hy with h' | h'
        · exact h3 y h'
        · have : y = e := by simpa using h'
          subst this
          exact ⟨dx, hs ▸ hdx, hs ▸ hadj⟩

theorem diffCollect_inv (selected : List String) (st : PatientState) :
    DiffInv st (diffCollect selected st) := by
  have hinit : DiffInv st ([], []) :=
    ⟨List.nodup_nil, fun x hx => absurd hx (List.not_mem_nil x),
     fun x hx => absurd hx (List.not_mem_nil x)⟩
  unfold diffCollect
  refine foldl_pres (DiffInv st) _ ?_ _ _ hinit
  intro acc symId hq
  exact foldl_pres_mem (DiffInv st) (diffTable symId) _
    (fun acc dx hdx hq' => diffStep_pres hdx hq') acc hq

/-! ### Stable sort lemmas -/

theorem insertSorted_perm {α : Type} (le : α → α → Bool) (x : α) (l : List α) :
    (insertSorted le x l).Perm (x :: l) := by
  induction l with
  | nil => exact List.Perm.refl _
  | cons y ys ih =>
    unfold insertSorted
    split
    · exact List.Perm.trans (List.Perm.cons y ih) (List.Perm.swap x y ys)
    · exact List.Perm.refl _

theorem pySort_perm {α : Type} (le : α → α → Bool) (l : List α) :
    (pySort le l).Perm l := by
  suffices h : ∀ (l : List α) (acc : List α),
      (l.foldl (fun acc x => insertSorted le x acc) acc).Perm (acc ++ l) by
    simpa using h l []
  intro l
  induction l with
  | nil => intro acc; simp
  | cons x xs ih =>
    intro acc
    rw [List.foldl_cons]
    refine List.Perm.trans (ih (insertSorted le x acc)) ?_
    refine List.Perm.trans (List.Perm.append_right xs (insertSorted_perm le x acc)) ?_
    exact List.perm_middle.symm

theorem mem_build_differential {selected : List String} {st : PatientState}
    {level : Nat} {e : DiffEntry} (he : e ∈ _build_differential selected st level) :
    e ∈ (diffCollect selected st).1 := by
  unfold _build_differential at he
  have he2 := List.mem_of_mem_take he
  obtain ⟨p, hp, hpe⟩ := List.mem_map.mp he2
  have hp2 : p ∈ (diffCollect selected st).1.map fun e => (diffSortKey level e, e) :=
    (pySort_perm _ _).mem_iff.mp hp
  obtain ⟨d, hd, hde⟩ := List.mem_map.mp hp2
  have : d = e := by
    rw [← hde] at hpe
    exact hpe
  exact this ▸ hd

theorem differential_bounds (selected : List String) (st : PatientState) (level : Nat) :
    (_build_differential selected st level).length ≤ 3 ∧
    ((_build_differential selected st level).map DiffEntry.diagnosis).Nodup := by
  refine ⟨take_length_le 3 _, ?_⟩
  have hperm : ((pySort (fun a b => keyLe a.1 b.1)
      ((diffCollect selected st).1.map fun e => (diffSortKey level e, e))).map Prod.snd).Perm
      (diffCollect selected st).1 := by
    have h1 := (pySort_perm (fun a b => keyLe a.1 b.1)
      ((diffCollect selected st).1.map fun e => (diffSortKey level e, e))).map Prod.snd
    refine h1.trans ?_
    rw [List.map_map]
    have : (Prod.snd ∘ fun e : DiffEntry => (diffSortKey level e, e)) = id := rfl
    rw [this, List.map_id]
  have hnodup : (((pySort (fun a b => keyLe a.1 b.1)
      ((diffCollect selected st).1.map fun e => (diffSortKey level e, e))).map Prod.snd).map
        DiffEntry.diagnosis).Nodup :=
    (hperm.map DiffEntry.diagnosis).symm.nodup (diffCollect_inv selected st).1
  exact nodup_map_take DiffEntry.diagnosis 3 _ hnodup

/-! ### Claim C6 -/

/-- C6: for every input, the Evidence lists are bounded and
duplicate-free under their stated dedup keys: `watch_for` (≤ 8, by sign
text), `escalation` (≤ 8, by `then_action`), `home_remedies` (≤ 6, by
remedy name), `differential` (≤ 3, by diagnosis name). -/
theorem C6_list_bounds (kb : KB) (st : PatientState) (pred : Prediction) :
    ((get_evidence kb st pred).watch_for.length ≤ 8 ∧
      (get_evidence kb st pred).watch_for.Nodup) ∧
    ((get_evidence kb st pred).escalation.length ≤ 8 ∧
      ((get_evidence kb st pred).escalation.map EscEntry.then_action).Nodup) ∧
    ((get_evidence kb st pred).home_remedies.length ≤ 6 ∧
      ((get_evidence kb st pred).home_remedies.map Remedy.remedy).Nodup) ∧
    ((get_evidence kb st pred).differential.length ≤ 3 ∧
      ((get_evidence kb st pred).differential.map DiffEntry.diagnosis).Nodup) :=
  ⟨watch_for_bounds st.selected_symptoms,
   escalation_bounds st.selected_symptoms,
   home_remedies_bounds st.selected_symptoms (pred.level.getD 3),
   differential_bounds st.selected_symptoms st (pred.level.getD 3)⟩

/-! ## Claims C3 and C10: the demographic/history adjustments -/

/-- Every likelihood in the differential catalogue is on the five-step
scale. -/
theorem diffCatalogue_wf :
    ∀ p ∈ SYMPTOM_DIFFERENTIALS, ∀ dx ∈ p.2, dx.likelihood ∈ likScale := by
  decide

theorem lookup_mem {β : Type} :
    ∀ (ps : List (String × β)) (k : String) (v : β),
      List.lookup k ps = some v → (k, v) ∈ ps := by
  intro ps
  induction ps with
  | nil => intro k v h; cases h
  | cons p rest ih =>
    intro k v h
    match p with
    | (k', v') =>
      simp only [List.lookup] at h
      by_cases hk : k == k'
      · rw [hk] at h
        cases h
        have : k = k' := by simpa using hk
        subst this
        exact List.mem_cons_self _ _
      · have hk' : (k == k') = false := by simpa using hk
        rw [hk'] at h
        exact List.mem_cons_of_mem _ (ih k v h)

theorem diffTable_wf {symId : String} {dx : DxEntry} (h : dx ∈ diffTable symId) :
    dx.likelihood ∈ likScale := by
  unfold diffTable at h
  cases hl : List.lookup symId SYMPTOM_DIFFERENTIALS with
  | none =>
    rw [hl] at h
    cases h
  | some l =>
    rw [hl] at h
    exact diffCatalogue_wf (symId, l) (lookup_mem _ _ _ hl) dx h

theorem promote_mem (l : String) : _promote l ∈ likScale := by
  by_cases h : l ∈ likScale
  · have h5 : l = "Rare" ∨ l = "Uncommon" ∨ l = "Less common" ∨ l = "Common" ∨
        l = "Very common" := by simpa [likScale] using h
    rcases h5 with rfl | rfl | rfl | rfl | rfl <;> decide
  · unfold _promote
    rw [if_neg h]
    decide

theorem demote_mem (l : String) : _demote l ∈ likScale := by
  by_cases h : l ∈ likScale
  · have h5 : l = "Rare" ∨ l = "Uncommon" ∨ l = "Less common" ∨ l = "Common" ∨
        l = "Very common" := by simpa [likScale] using h
    rcases h5 with rfl | rfl | rfl | rfl | rfl <;> decide
  · unfold _demote
    rw [if_neg h]
    decide

/-- Each adjustment rule assigns from the base likelihood, so the result
is the base, its promotion, or its demotion. -/
theorem adjLik_cases (notesL baseLik : String) (age : Int) (pmh : List String) :
    adjLik notesL baseLik age pmh = baseLik ∨
    adjLik notesL baseLik age pmh = _promote baseLik ∨
    adjLik notesL baseLik age pmh = _demote baseLik := by
  unfold adjLik
  split_ifs <;>
    first
      | exact Or.inl rfl
      | exact Or.inr (Or.inl rfl)
      | exact Or.inr (Or.inr rfl)

/-- One promotion or demotion moves at most one step on the scale. -/
theorem step_dist :
    ∀ b ∈ likScale,
      Nat.dist (likScale.indexOf (_promote b)) (likScale.indexOf b) ≤ 1 ∧
      Nat.dist (likScale.indexOf (_demote b)) (likScale.indexOf b) ≤ 1 := by
  decide

/-- C3 counterexample state: 70 years old, no structured history. -/
def stC3 : PatientState :=
  { emptyState with age := some 70, selected_symptoms := ["back_pain"] }

set_option maxHeartbeats 4000000 in
/-- C3 counterexample: for `back_pain` at age 70 with an empty history,
the produced "Vertebral compression fracture" entry has likelihood
"Less common" — promoted from its catalogue value "Uncommon" although
osteoporosis is not in the patient's structured history, contradicting
the claim that history markers promote *only* when the condition is
present in the history. -/
theorem C3_counterexample :
    ((_build_differential ["back_pain"] stC3 1).map fun e => (e.diagnosis, e.likelihood))
      = [("Kidney stones / Pyelonephritis", "Less common"),
         ("Vertebral compression fracture", "Less common"),
         ("Cauda equina syndrome", "Rare")] ∧
    ((diffTable "back_pain").map fun dx => (dx.diagnosis, dx.likelihood)).contains
      ("Vertebral compression fracture", "Uncommon") = true ∧
    stC3.pmh = [] ∧ stC3.age = some 70 := by
  refine ⟨by decide, by decide, rfl, rfl⟩

/-- C3 amended: every produced differential entry stays on the five-step
scale and satisfies the exclusion rules, and its likelihood is the
adjustment cascade applied to the base catalogue likelihood, where the
cascade behaves as the claim states for the demographic rules — except
that the osteoporosis marker promotes on `age ≥ 65` alone, with no
history condition.  Promotions/demotions that fire later in the cascade
take precedence (last matching rule wins, per C10). -/
theorem C3_amended :
    (∀ (selected : List String) (st : PatientState) (level : Nat) (e : DiffEntry),
      e ∈ _build_differential selected st level →
      e.likelihood ∈ likScale ∧
      (strIn "reproductive-age female" (lowerStr e.notes) = true → effSex st ≠ "male") ∧
      (strIn "older males" (lowerStr e.notes) = true → effSex st ≠ "female") ∧
      ∃ dx, dx ∈ diffTable e.source_symptom ∧ dx.diagnosis = e.diagnosis ∧
        dx.notes = e.notes ∧
        e.likelihood = adjLik (lowerStr dx.notes) dx.likelihood (effAge st) st.pmh) ∧
    (∀ (notesL baseLik : String) (age : Int) (pmh : List String),
      strIn "osteoporosis" notesL = true → 65 ≤ age →
      adjLik notesL baseLik age pmh = _promote baseLik) ∧
    (∀ (notesL baseLik : String) (age : Int) (pmh : List String),
      strIn "cardiac" notesL = true → "Heart Problems" ∈ pmh →
      ¬ (strIn "osteoporosis" notesL = true ∧ 65 ≤ age) →
      adjLik notesL baseLik age pmh = _promote baseLik) ∧
    (∀ (notesL baseLik : String) (age : Int) (pmh : List String),
      strIn "diabetes" notesL = true → "Diabetes" ∈ pmh →
      ¬ (strIn "cardiac" notesL = true ∧ "Heart Problems" ∈ pmh) →
      ¬ (strIn "osteoporosis" notesL = true ∧ 65 ≤ age) →
      adjLik notesL baseLik age pmh = _promote baseLik) ∧
    (∀ (notesL baseLik : String) (age : Int) (pmh : List String),
      strIn "younger patients" notesL = true → 60 ≤ age →
      ¬ (strIn "diabetes" notesL = true ∧ "Diabetes" ∈ pmh) →
      ¬ (strIn "cardiac" notesL = true ∧ "Heart Problems" ∈ pmh) →
      ¬ (strIn "osteoporosis" notesL = true ∧ 65 ≤ age) →
      adjLik notesL baseLik age pmh = _demote baseLik) ∧
    (∀ (notesL baseLik : String) (age : Int) (pmh : List String),
      strIn "older adults" notesL = true → age < 40 →
      ¬ (strIn "younger patients" notesL = true ∧ 60 ≤ age) →
      ¬ (strIn "diabetes" notesL = true ∧ "Diabetes" ∈ pmh) →
      ¬ (strIn "cardiac" notesL = true ∧ "Heart Problems" ∈ pmh) →
      ¬ (strIn "osteoporosis" notesL = true ∧ 65 ≤ age) →
      adjLik notesL baseLik age pmh = _demote baseLik) ∧
    (∀ (notesL baseLik : String) (age : Int) (pmh : List String),
      ¬ (strIn "older adults" notesL = true ∧ age < 40) →
      ¬ (strIn "younger patients" notesL = true ∧ 60 ≤ age) →
      ¬ (strIn "diabetes" notesL = true ∧ "Diabetes" ∈ pmh) →
      ¬ (strIn "cardiac" notesL = true ∧ "Heart Problems" ∈ pmh) →
      ¬ (strIn "osteoporosis" notesL = true ∧ 65 ≤ age) →
      adjLik notesL baseLik age pmh = baseLik) := by
  refine ⟨?_, ?_, ?_, ?_, ?_, ?_, ?_⟩
  · intro selected st level e he
    obtain ⟨dx, hdx, hadj⟩ :=
      (diffCollect_inv selected st).2.2 e (mem_build_differential he)
    obtain ⟨hd, hn, hs, hl, hx1, hx2⟩ := adjustEntry_some hadj
    refine ⟨?_, ?_, ?_, dx, hdx, hd.symm, hn.symm, hl⟩
    · rw [hl]
      rcases adjLik_cases (lowerStr dx.notes) dx.likelihood (effAge st) st.pmh
        with h | h | h <;> rw [h]
      · exact diffTable_wf hdx
      · exact promote_mem _
      · exact demote_mem _
    · intro hmark hsex
      rw [hn] at hmark
      exact hx1 ⟨hmark, hsex⟩
    · intro hmark hsex
      rw [hn] at hmark
      exact hx2 ⟨hmark, hsex⟩
  · intro notesL baseLik age pmh h1 h2
    simp only [adjLik]
    rw [if_pos ⟨h1, h2⟩]
  · intro notesL baseLik age pmh h1 h2 hno
    simp only [adjLik]
    rw [if_neg hno, if_pos ⟨h1, h2⟩]
  · intro notesL baseLik age pmh h1 h2 hnoc hnoo
    simp only [adjLik]
    rw [if_neg hnoo, if_neg hnoc, if_pos ⟨h1, h2⟩]
  · intro notesL baseLik age pmh h1 h2 hnod hnoc hnoo
    simp only [adjLik]
    rw [if_neg hnoo, if_neg hnoc, if_neg hnod, if_pos ⟨h1, h2⟩]
  · intro notesL baseLik age pmh h1 h2 hnoy hnod hnoc hnoo
    simp only [adjLik]
    rw [if_neg hnoo, if_neg hnoc, if_neg hnod, if_neg hnoy, if_pos ⟨h1, h2⟩]
  · intro notesL baseLik age pmh hnoa hnoy hnod hnoc hnoo
    simp only [adjLik]
    rw [if_neg hnoo, if_neg hnoc, if_neg hnod, if_neg hnoy, if_neg hnoa]

/-- The concrete entry used in the C3/C10 witnesses. -/
def eC3w : DiffEntry :=
  { diagnosis := "Vertebral compression fracture"
    likelihood := "Less common"
    notes := "Sudden pain after minor trauma; osteoporosis risk"
    source_symptom := "back_pain" }

set_option maxHeartbeats 4000000 in
/-- Witness for C3 amended at the `back_pain` / age-70 input. -/
theorem C3_witness :
    eC3w.likelihood ∈ likScale ∧
    (strIn "reproductive-age female" (lowerStr eC3w.notes) = true → effSex stC3 ≠ "male") ∧
    (strIn "older males" (lowerStr eC3w.notes) = true → effSex stC3 ≠ "female") ∧
    ∃ dx, dx ∈ diffTable eC3w.source_symptom ∧ dx.diagnosis = eC3w.diagnosis ∧
      dx.notes = eC3w.notes ∧
      eC3w.likelihood = adjLik (lowerStr dx.notes) dx.likelihood (effAge stC3) stC3.pmh :=
  C3_amended.1 ["back_pain"] stC3 1 eC3w (by decide)

/-- C10: every produced differential entry's likelihood is the base
catalogue likelihood, its promotion, or its demotion — never more than
one ordinal step away — because each adjustment recomputes from the base
value, so matching rules do not compound and the last matching rule's
assignment determines the result. -/
theorem C10_no_compounding :
    (∀ (selected : List String) (st : PatientState) (level : Nat) (e : DiffEntry),
      e ∈ _build_differential selected st level →
      ∃ dx, dx ∈ diffTable e.source_symptom ∧ dx.diagnosis = e.diagnosis ∧
        (e.likelihood = dx.likelihood ∨ e.likelihood = _promote dx.likelihood ∨
          e.likelihood = _demote dx.likelihood) ∧
        Nat.dist (likScale.indexOf e.likelihood) (likScale.indexOf dx.likelihood) ≤ 1) ∧
    (∀ (notesL baseLik : String) (age : Int) (pmh : List String),
      adjLik notesL baseLik age pmh = baseLik ∨
      adjLik notesL baseLik age pmh = _promote baseLik ∨
      adjLik notesL baseLik age pmh = _demote baseLik) := by
  refine ⟨?_, adjLik_cases⟩
  intro selected st level e he
  obtain ⟨dx, hdx, hadj⟩ :=
    (diffCollect_inv selected st).2.2 e (mem_build_differential he)
  obtain ⟨hd, hn, hs, hl, _, _⟩ := adjustEntry_some hadj
  have hcases := adjLik_cases (lowerStr dx.notes) dx.likelihood (effAge st) st.pmh
  refine ⟨dx, hdx, hd.symm, ?_, ?_⟩
  · rw [hl]
    exact hcases
  · rw [hl]
    rcases hcases with h | h | h <;> rw [h]
    · simp [Nat.dist_self]
    · exact (step_dist dx.likelihood (diffTable_wf hdx)).1
    · exact (step_dist dx.likelihood (diffTable_wf hdx)).2

set_option maxHeartbeats 4000000 in
/-- Witness for C10 at the `back_pain` / age-70 input. -/
theorem C10_witness :
    ∃ dx, dx ∈ diffTable eC3w.source_symptom ∧ dx.diagnosis = eC3w.diagnosis ∧
      (eC3w.likelihood = dx.likelihood ∨ eC3w.likelihood = _promote dx.likelihood ∨
        eC3w.likelihood = _demote dx.likelihood) ∧
      Nat.dist (likScale.indexOf eC3w.likelihood) (likScale.indexOf dx.likelihood) ≤ 1 :=
  C10_no_compounding.1 ["back_pain"] stC3 1 eC3w (by decide)
